import Mathlib

/-!
Verification of the Secure Simple Pairing core
(`tools/rootcanal/lmp/src/procedure/secure_simple_pairing.rs`).

The pure functions (`has_mitm`, `authentication_method`, `link_key_type`,
public-key chunking) are translated directly.  The coroutine-shaped
procedures (`initiate`, `respond` and their helpers) are embedded as
functions from an explicit environment — the host commands, peer packets
and collaborator results the procedure consumes at its suspension
points — to a trace of emitted/consumed events together with an optional
result.  A `none` result models a run that does not complete: a Rust
panic (`unwrap`/`todo!`) or a suspension point whose input never
arrives.  Byte-level wire encoding is performed by an external codec in
the real system, so packet fields are modelled with their decoded types;
metadata of inbound packets that the code never reads (their transaction
ids, the header major/minor types) is fixed to representative values in
the recorded trace.
-/

namespace SSP

/-- HCI IO capabilities (external `hci` codec enum). -/
inductive IoCapability
  | displayOnly
  | displayYesNo
  | keyboardOnly
  | noInputNoOutput
deriving DecidableEq, Repr, Fintype

/-- HCI OOB-data-present values (external `hci` codec enum). -/
inductive OobDataPresent
  | notPresent
  | p192Present
  | p256Present
  | p192AndP256Present
deriving DecidableEq, Repr, Fintype

/-- HCI authentication requirements (external `hci` codec enum). -/
inductive AuthenticationRequirements
  | noBonding
  | noBondingMitmProtection
  | dedicatedBonding
  | dedicatedBondingMitmProtection
  | generalBonding
  | generalBondingMitmProtection
deriving DecidableEq, Repr, Fintype

/-- HCI link-key types (external `hci` codec enum). -/
inductive KeyType
  | unauthenticatedP192
  | unauthenticatedP256
  | authenticatedP192
  | authenticatedP256
deriving DecidableEq, Repr, Fintype

/-- The two HCI error codes this file uses. -/
inductive ErrorCode
  | success
  | authenticationFailure
deriving DecidableEq, Repr, Fintype

/-- `has_mitm` from the source: true iff the variant carries the
MITM-protection flag. -/
def has_mitm : AuthenticationRequirements → Bool
  | .noBonding | .dedicatedBonding | .generalBonding => false
  | .noBondingMitmProtection | .dedicatedBondingMitmProtection
  | .generalBondingMitmProtection => true

/-- `AuthenticationMethod` from the source (source spelling kept). -/
inductive AuthenticationMethod
  | outOfBand
  | numericComparaisonJustWork
  | numericComparaisonUserConfirm
  | passkeyEntry
deriving DecidableEq, Repr, Fintype

/-- `AuthenticationParams` from the source. -/
structure AuthenticationParams where
  io_capability : IoCapability
  oob_data_present : OobDataPresent
  authentication_requirements : AuthenticationRequirements
deriving DecidableEq, Repr, Fintype

/-- `authentication_method` from the source (Bluetooth Core, Vol 2,
Part C, 4.2.7.3): the if/else-if cascade translated clause by clause. -/
def authentication_method (initiator responder : AuthenticationParams) :
    AuthenticationMethod :=
  if initiator.oob_data_present != .notPresent ||
      responder.oob_data_present != .notPresent then
    .outOfBand
  else if !has_mitm initiator.authentication_requirements &&
      !has_mitm responder.authentication_requirements then
    .numericComparaisonJustWork
  else if (initiator.io_capability == .keyboardOnly &&
        responder.io_capability != .noInputNoOutput) ||
      (responder.io_capability == .keyboardOnly &&
        initiator.io_capability != .noInputNoOutput) then
    .passkeyEntry
  else if initiator.io_capability == .displayYesNo &&
      responder.io_capability == .displayYesNo then
    .numericComparaisonUserConfirm
  else
    .numericComparaisonJustWork

/-- The method-selection cascade exactly as the specification words it
(§4.1, first match wins), for comparison with the source translation. -/
def authentication_method_spec (i r : AuthenticationParams) :
    AuthenticationMethod :=
  if i.oob_data_present ≠ .notPresent ∨ r.oob_data_present ≠ .notPresent then
    .outOfBand
  else if has_mitm i.authentication_requirements = false ∧
      has_mitm r.authentication_requirements = false then
    .numericComparaisonJustWork
  else if (i.io_capability = .keyboardOnly ∧
        r.io_capability ≠ .noInputNoOutput) ∨
      (r.io_capability = .keyboardOnly ∧
        i.io_capability ≠ .noInputNoOutput) then
    .passkeyEntry
  else if i.io_capability = .displayYesNo ∧
      r.io_capability = .displayYesNo then
    .numericComparaisonUserConfirm
  else
    .numericComparaisonJustWork

def P192_PUBLIC_KEY_SIZE : Nat := 48
def P256_PUBLIC_KEY_SIZE : Nat := 64

/-- `PublicKey` from the source.  The Rust arrays `[u8; 48]` / `[u8; 64]`
are modelled as byte lists; every key the program builds comes from
`PublicKey.generate` or from reassembly into a generated key, so its
data length always equals the declared variant size. -/
inductive PublicKey
  | P192 (data : List Nat)
  | P256 (data : List Nat)
deriving DecidableEq, Repr

/-- `PublicKey::generate` from the source: a zero-filled key whose
variant is selected by the requested size; other sizes fail. -/
def PublicKey.generate (key_size : Nat) : Option PublicKey :=
  if key_size = P192_PUBLIC_KEY_SIZE then
    some (.P192 (List.replicate P192_PUBLIC_KEY_SIZE 0))
  else if key_size = P256_PUBLIC_KEY_SIZE then
    some (.P256 (List.replicate P256_PUBLIC_KEY_SIZE 0))
  else
    none

/-- `PublicKey::as_slice` from the source. -/
def PublicKey.as_slice : PublicKey → List Nat
  | .P192 d => d
  | .P256 d => d

/-- `PublicKey::get_size` from the source: the size constant of the
variant (not the data length). -/
def PublicKey.get_size : PublicKey → Nat
  | .P192 _ => P192_PUBLIC_KEY_SIZE
  | .P256 _ => P256_PUBLIC_KEY_SIZE

/-- Replace a key's data, keeping its variant (models the in-place
`as_mut_slice` writes of `receive_public_key`). -/
def PublicKey.withData : PublicKey → List Nat → PublicKey
  | .P192 _, d => .P192 d
  | .P256 _, d => .P256 d

/-- Variant selector of a `PublicKey`. -/
def PublicKey.isP256 : PublicKey → Bool
  | .P192 _ => false
  | .P256 _ => true

/-- `link_key_type` from the source (Bluetooth Core, Vol 3, Part C,
5.2.2.6). -/
def link_key_type (auth_method : AuthenticationMethod)
    (public_key : PublicKey) : KeyType :=
  match public_key, auth_method with
  | .P256 _, .outOfBand | .P256 _, .passkeyEntry
  | .P256 _, .numericComparaisonUserConfirm => .authenticatedP256
  | .P192 _, .outOfBand | .P192 _, .passkeyEntry
  | .P192 _, .numericComparaisonUserConfirm => .authenticatedP192
  | .P256 _, .numericComparaisonJustWork => .unauthenticatedP256
  | .P192 _, .numericComparaisonJustWork => .unauthenticatedP192

/-- Whether a `KeyType` is one of the Authenticated variants. -/
def KeyType.isAuthenticated : KeyType → Bool
  | .authenticatedP192 | .authenticatedP256 => true
  | .unauthenticatedP192 | .unauthenticatedP256 => false

/-- Whether a `KeyType` is one of the P-256 variants. -/
def KeyType.isP256 : KeyType → Bool
  | .unauthenticatedP256 | .authenticatedP256 => true
  | .unauthenticatedP192 | .authenticatedP192 => false

/-! ### Wire events and the procedure embedding -/

/-- LMP opcodes referenced by the explicit `Accepted` / `NotAccepted`
frames this file builds. -/
inductive Opcode
  | encapsulatedHeader
  | encapsulatedPayload
  | simplePairingNumber
  | dhkeyCheck
deriving DecidableEq, Repr

/-- The LMP packets built or consumed by the source, with the fields the
source sets or reads.  Byte-level encoding belongs to the external
codec. -/
inductive LmpPacket
  | ioCapabilityReq (transaction_id : Nat) (iocap : IoCapability)
      (oob : OobDataPresent) (authreq : AuthenticationRequirements)
  | ioCapabilityRes (transaction_id : Nat) (iocap : IoCapability)
      (oob : OobDataPresent) (authreq : AuthenticationRequirements)
  | encapsulatedHeader (transaction_id major_type minor_type payload_length : Nat)
  | encapsulatedPayload (transaction_id : Nat) (data : List Nat)
  | simplePairingConfirm (transaction_id : Nat) (commitment_value : List Nat)
  | simplePairingNumber (transaction_id : Nat) (nonce : List Nat)
  | dhkeyCheck (transaction_id : Nat) (confirmation_value : List Nat)
  | numericComparaisonFailed (transaction_id : Nat)
  | accepted (transaction_id : Nat) (accepted_opcode : Opcode)
  | notAccepted (transaction_id : Nat) (not_accepted_opcode : Opcode)
      (error_code : ErrorCode)
deriving DecidableEq, Repr

/-- The transaction id carried by an LMP packet. -/
def LmpPacket.transaction_id : LmpPacket → Nat
  | .ioCapabilityReq t _ _ _ => t
  | .ioCapabilityRes t _ _ _ => t
  | .encapsulatedHeader t _ _ _ => t
  | .encapsulatedPayload t _ => t
  | .simplePairingConfirm t _ => t
  | .simplePairingNumber t _ => t
  | .dhkeyCheck t _ => t
  | .numericComparaisonFailed t => t
  | .accepted t _ => t
  | .notAccepted t _ _ => t

/-- The HCI events the source emits, with the fields the source sets
(the constant `bd_addr` and `num_hci_command_packets` fields are
omitted). -/
inductive HciEvent
  | ioCapabilityRequest
  | ioCapabilityRequestReplyComplete (status : ErrorCode)
  | ioCapabilityResponse (iocap : IoCapability) (oob : OobDataPresent)
      (authreq : AuthenticationRequirements)
  | userConfirmationRequest (numeric_value : Nat)
  | userConfirmationRequestReplyComplete (status : ErrorCode)
  | userConfirmationRequestNegativeReplyComplete (status : ErrorCode)
  | userPasskeyRequest
  | userPasskeyRequestReplyComplete (status : ErrorCode)
  | userPasskeyRequestNegativeReplyComplete (status : ErrorCode)
  | sendKeypressNotifComplete (status : ErrorCode)
  | userPasskeyNotif (passkey : Nat)
  | remoteOobDataRequest
  | remoteOobDataRequestReplyComplete (status : ErrorCode)
  | remoteOobDataRequestNegativeReplyComplete (status : ErrorCode)
  | simplePairingComplete (status : ErrorCode)
  | linkKeyNotif (key_type : KeyType) (link_key : List Nat)
deriving DecidableEq, Repr

/-- One observable step of a procedure: an LMP packet sent to the peer,
an LMP packet received from the peer, or an HCI event sent to the
host. -/
inductive Event
  | lmpSent (p : LmpPacket)
  | lmpRecv (p : LmpPacket)
  | hciSent (e : HciEvent)
deriving DecidableEq, Repr

/-- A procedure run: the trace of events it performed and its result;
`none` models a run that does not complete (a Rust panic or a
suspension point whose input never arrives). -/
abbrev Proc (α : Type) : Type := List Event × Option α

/-- Return without events. -/
def Proc.ret {α : Type} (a : α) : Proc α := ([], some a)

/-- An incomplete run: a panic (`unwrap` / `todo!`) or a receive that is
never satisfied. -/
def Proc.stop {α : Type} : Proc α := ([], none)

/-- Sequencing: on an incomplete first part the run stops with the
events performed so far. -/
def Proc.bind {α β : Type} : Proc α → (α → Proc β) → Proc β
  | (t, none), _ => (t, none)
  | (t, some a), f => (t ++ (f a).1, (f a).2)

/-- `ctx.send_lmp_packet`. -/
def sendLmp (p : LmpPacket) : Proc Unit := ([.lmpSent p], some ())

/-- `ctx.receive_lmp_packet`: the packet contents are environment
inputs; the event records what arrived. -/
def recvLmp (p : LmpPacket) : Proc Unit := ([.lmpRecv p], some ())

/-- `ctx.send_hci_event`. -/
def sendHci (e : HciEvent) : Proc Unit := ([.hciSent e], some ())

/-- `ctx.send_accepted_lmp_packet`: emits the packet and suspends until
the peer's `Accepted`/`NotAccepted`; the boolean environment input
`resp` is true when the peer accepts. -/
def sendAcceptedLmp (p : LmpPacket) (resp : Bool) : Proc Bool :=
  ([.lmpSent p], some resp)

/-- Modelled from the spec: the external collaborator
`authentication::send_challenge` (§6) returns a success/failure result
and emits its own events, which are outside this core; only its result
is modelled, as an environment input. -/
def send_challenge (result : Bool) : Proc Bool := ([], some result)

/-- Modelled from the spec: the external collaborator
`authentication::receive_challenge` (§6); its events are outside this
core. -/
def receive_challenge : Proc Unit := ([], some ())

def COMMITMENT_VALUE_SIZE : Nat := 16
def NONCE_SIZE : Nat := 16
def CONFIRMATION_VALUE_SIZE : Nat := 16
def PASSKEY_ENTRY_REPEAT_NUMBER : Nat := 20

/-- A zero-filled byte buffer of length `n`. -/
def zeros (n : Nat) : List Nat := List.replicate n 0

/-! ### Key transfer -/

/-- Fuel-indexed worker for `chunks` (structural recursion so that runs
evaluate inside the kernel). -/
def chunksAux {α : Type} : Nat → Nat → List α → List (List α)
  | _, _, [] => []
  | 0, _, _ :: _ => []
  | fuel + 1, n, x :: xs =>
    (x :: xs).take n :: chunksAux fuel n ((x :: xs).drop n)

/-- Rust's `slice::chunks n`: successive sub-slices of length `n`, the
last possibly shorter; the fuel `l.length` suffices for every `n ≥ 1`. -/
def chunks {α : Type} (n : Nat) (l : List α) : List (List α) :=
  chunksAux l.length n l

/-- Environment and loop of `send_public_key`: one
`EncapsulatedPayload` per 16-byte chunk, each through
`send_accepted_lmp_packet` whose result is discarded; a chunk that is
not exactly 16 bytes would make the source's `try_into().unwrap()`
panic. -/
def send_chunks (transaction_id : Nat) :
    List (List Nat) → List Bool → Proc Unit
  | [], _ => Proc.ret ()
  | c :: cs, rs =>
    if c.length = 16 then
      Proc.bind (sendAcceptedLmp (.encapsulatedPayload transaction_id c)
        (rs.headD true)) fun _ =>
      send_chunks transaction_id cs rs.tail
    else Proc.stop

/-- `send_public_key` from the source: one `EncapsulatedHeader` with the
key's size, then the 16-byte chunks in order; every
`send_accepted_lmp_packet` result is discarded (`let _ = ...`).
`responses` are the peer's accept/reject decisions, header first. -/
def send_public_key (transaction_id : Nat) (public_key : PublicKey)
    (responses : List Bool) : Proc Unit :=
  Proc.bind (sendAcceptedLmp
    (.encapsulatedHeader transaction_id 1 1 public_key.get_size)
    (responses.headD true)) fun _ =>
  send_chunks transaction_id (chunks 16 public_key.as_slice) responses.tail

/-- Receive loop of `receive_public_key`: one `EncapsulatedPayload` per
16-byte slot of the allocated key, each acknowledged with `Accepted`;
`copy_from_slice` panics unless the arriving data length equals the
slot length, and a missing packet leaves the run incomplete. -/
def receive_chunks (transaction_id : Nat) :
    List (List Nat) → List (List Nat) → Proc (List Nat)
  | [], _ => Proc.ret []
  | _ :: _, [] => Proc.stop
  | slot :: slots, d :: ds =>
    Proc.bind (recvLmp (.encapsulatedPayload 0 d)) fun _ =>
    if d.length = slot.length then
      Proc.bind (sendLmp (.accepted transaction_id .encapsulatedPayload)) fun _ =>
      Proc.bind (receive_chunks transaction_id slots ds) fun rest =>
      Proc.ret (d ++ rest)
    else Proc.stop

/-- `receive_public_key` from the source: receive the header, allocate a
key of its declared `payload_length` (other sizes make the source's
`unwrap` panic), acknowledge, then receive and acknowledge each 16-byte
chunk.  `payload_length` and `chunksIn` are the peer's inputs. -/
def receive_public_key (transaction_id : Nat) (payload_length : Nat)
    (chunksIn : List (List Nat)) : Proc PublicKey :=
  Proc.bind (recvLmp (.encapsulatedHeader 0 1 1 payload_length)) fun _ =>
  match PublicKey.generate payload_length with
  | none => Proc.stop
  | some key =>
    Proc.bind (sendLmp (.accepted transaction_id .encapsulatedHeader)) fun _ =>
    Proc.bind (receive_chunks transaction_id (chunks 16 key.as_slice) chunksIn)
      fun data =>
    Proc.ret (key.withData data)

/-! ### Stage-1 building blocks -/

/-- The peer inputs of one commitment round: the peer's
`SimplePairingConfirm` value, the peer's `SimplePairingNumber` nonce,
and whether the peer accepts our `SimplePairingNumber`. -/
structure CommitmentEnv where
  peerConfirm : List Nat
  peerNonce : List Nat
  numberAccepted : Bool

/-- `send_commitment` from the source (initiator side of a round):
optionally send the local confirm, receive the peer confirm (a mismatch
with the all-zero local commitment is the source's `todo!()` panic),
send the local nonce awaiting `Accepted`, receive the peer nonce,
acknowledge it. -/
def send_commitment (skip_first : Bool) (env : CommitmentEnv) : Proc Unit :=
  Proc.bind
    (if skip_first then Proc.ret ()
     else sendLmp (.simplePairingConfirm 0 (zeros COMMITMENT_VALUE_SIZE)))
    fun _ =>
  Proc.bind (recvLmp (.simplePairingConfirm 0 env.peerConfirm)) fun _ =>
  if env.peerConfirm ≠ zeros COMMITMENT_VALUE_SIZE then Proc.stop
  else
    Proc.bind (sendAcceptedLmp (.simplePairingNumber 0 (zeros NONCE_SIZE))
      env.numberAccepted) fun _ =>
    Proc.bind (recvLmp (.simplePairingNumber 0 env.peerNonce)) fun _ =>
    sendLmp (.accepted 0 .simplePairingNumber)

/-- `receive_commitment` from the source (responder side of a round):
optionally receive the peer confirm (mismatch is the source's `todo!()`
panic), send the local confirm, receive the peer nonce, acknowledge it,
send the local nonce awaiting `Accepted`. -/
def receive_commitment (skip_first : Bool) (env : CommitmentEnv) : Proc Unit :=
  Proc.bind
    (if skip_first then Proc.ret ()
     else
       Proc.bind (recvLmp (.simplePairingConfirm 0 env.peerConfirm)) fun _ =>
       if env.peerConfirm ≠ zeros COMMITMENT_VALUE_SIZE then Proc.stop
       else Proc.ret ())
    fun _ =>
  Proc.bind (sendLmp (.simplePairingConfirm 0 (zeros COMMITMENT_VALUE_SIZE)))
    fun _ =>
  Proc.bind (recvLmp (.simplePairingNumber 0 env.peerNonce)) fun _ =>
  Proc.bind (sendLmp (.accepted 0 .simplePairingNumber)) fun _ =>
  Proc.bind (sendAcceptedLmp (.simplePairingNumber 0 (zeros NONCE_SIZE))
    env.numberAccepted) fun _ =>
  Proc.ret ()

/-- The Passkey Entry loop of `initiate`:
`for _ in 0..n { send_commitment(ctx, false) }`. -/
def send_commitment_rounds (envs : Nat → CommitmentEnv) : Nat → Proc Unit
  | 0 => Proc.ret ()
  | n + 1 =>
    Proc.bind (send_commitment false (envs n)) fun _ =>
    send_commitment_rounds envs n

/-- The Passkey Entry loop of `respond`:
`for _ in 0..n { receive_commitment(ctx, false) }`. -/
def receive_commitment_rounds (envs : Nat → CommitmentEnv) : Nat → Proc Unit
  | 0 => Proc.ret ()
  | n + 1 =>
    Proc.bind (receive_commitment false (envs n)) fun _ =>
    receive_commitment_rounds envs n

/-- `user_confirmation_request` from the source; `reply` is true when
the host answers `UserConfirmationRequestReply`, false for the negative
reply; the returned boolean is `Ok`/`Err`. -/
def user_confirmation_request (reply : Bool) : Proc Bool :=
  Proc.bind (sendHci (.userConfirmationRequest 0)) fun _ =>
  if reply then
    Proc.bind (sendHci (.userConfirmationRequestReplyComplete .success)) fun _ =>
    Proc.ret true
  else
    Proc.bind (sendHci (.userConfirmationRequestNegativeReplyComplete .success))
      fun _ =>
    Proc.ret false

/-- The host commands `user_passkey_request` can receive in its loop. -/
inductive PasskeyCmd
  | reply
  | negativeReply
  | keypress
deriving DecidableEq, Repr

/-- The receive loop of `user_passkey_request`: keypress notifications
are acknowledged and the loop continues; a reply terminates with
`Ok`/`Err`.  An empty command list leaves the procedure suspended. -/
def user_passkey_loop : List PasskeyCmd → Proc Bool
  | [] => Proc.stop
  | .reply :: _ =>
    Proc.bind (sendHci (.userPasskeyRequestReplyComplete .success)) fun _ =>
    Proc.ret true
  | .negativeReply :: _ =>
    Proc.bind (sendHci (.userPasskeyRequestNegativeReplyComplete .success))
      fun _ =>
    Proc.ret false
  | .keypress :: rest =>
    Proc.bind (sendHci (.sendKeypressNotifComplete .success)) fun _ =>
    user_passkey_loop rest

/-- `user_passkey_request` from the source. -/
def user_passkey_request (cmds : List PasskeyCmd) : Proc Bool :=
  Proc.bind (sendHci .userPasskeyRequest) fun _ =>
  user_passkey_loop cmds

/-- `remote_oob_data_request` from the source; `reply` is true for
`RemoteOobDataRequestReply`, false for the negative reply. -/
def remote_oob_data_request (reply : Bool) : Proc Bool :=
  Proc.bind (sendHci .remoteOobDataRequest) fun _ =>
  if reply then
    Proc.bind (sendHci (.remoteOobDataRequestReplyComplete .success)) fun _ =>
    Proc.ret true
  else
    Proc.bind (sendHci (.remoteOobDataRequestNegativeReplyComplete .success))
      fun _ =>
    Proc.ret false

/-! ### Pairing coordinator -/

/-- The environment of one `initiate` run: every host command, peer
packet and collaborator result the procedure can consume. -/
structure InitiateEnv where
  /-- Fields of the host's `IoCapabilityRequestReply`. -/
  hostReply : AuthenticationParams
  /-- Fields of the peer's `IoCapabilityRes` (decoded by the codec). -/
  peerRes : AuthenticationParams
  /-- `features::supported_on_both_page1(SecureConnectionsHostSupport)`. -/
  secureConnections : Bool
  /-- Peer decisions for `send_public_key`, header first. -/
  sendKeyResponses : List Bool
  /-- `payload_length` of the peer's `EncapsulatedHeader`. -/
  peerKeyHeaderLen : Nat
  /-- Data of the peer's `EncapsulatedPayload` frames, in order. -/
  peerKeyChunks : List (List Nat)
  /-- Host decision on `UserConfirmationRequest`. -/
  confirmationReply : Bool
  /-- Host commands answering `UserPasskeyRequest`. -/
  passkeyCmds : List PasskeyCmd
  /-- Host decision on `RemoteOobDataRequest`. -/
  oobReply : Bool
  /-- Peer inputs of each commitment round. -/
  commitEnvs : Nat → CommitmentEnv
  /-- Peer decision on our `DhkeyCheck`. -/
  dhkeyAccepted : Bool
  /-- Confirmation value of the peer's `DhkeyCheck`. -/
  peerDhkey : List Nat
  /-- Result of `authentication::send_challenge`. -/
  sendChallengeOk : Bool

/-- Capability exchange of `initiate`: host round-trip, forward the
reply to the peer as `IoCapabilityReq`, receive the peer's
`IoCapabilityRes`, surface it to the host. -/
def initiate_capability (hostReply peerRes : AuthenticationParams) :
    Proc (AuthenticationParams × AuthenticationParams) :=
  Proc.bind (sendHci .ioCapabilityRequest) fun _ =>
  Proc.bind (sendHci (.ioCapabilityRequestReplyComplete .success)) fun _ =>
  Proc.bind (sendLmp (.ioCapabilityReq 0 hostReply.io_capability
    hostReply.oob_data_present hostReply.authentication_requirements)) fun _ =>
  Proc.bind (recvLmp (.ioCapabilityRes 0 peerRes.io_capability
    peerRes.oob_data_present peerRes.authentication_requirements)) fun _ =>
  Proc.bind (sendHci (.ioCapabilityResponse peerRes.io_capability
    peerRes.oob_data_present peerRes.authentication_requirements)) fun _ =>
  Proc.ret (hostReply, peerRes)

/-- Public-key exchange of `initiate`: generate a P-256 key when both
peers support Secure Connections, else P-192; send it, then receive the
peer's key. -/
def initiate_key_exchange (env : InitiateEnv) : Proc PublicKey :=
  match PublicKey.generate
      (if env.secureConnections then P256_PUBLIC_KEY_SIZE
       else P192_PUBLIC_KEY_SIZE) with
  | none => Proc.stop
  | some key =>
    Proc.bind (send_public_key 0 key env.sendKeyResponses) fun _ =>
    receive_public_key 0 env.peerKeyHeaderLen env.peerKeyChunks

/-- Authentication Stage 1 of `initiate` (the inner `async` block of the
source): returns `Ok`/`Err` as a boolean. -/
def initiate_stage1 (auth_method : AuthenticationMethod)
    (initiator : AuthenticationParams) (env : InitiateEnv) : Proc Bool :=
  match auth_method with
  | .numericComparaisonJustWork | .numericComparaisonUserConfirm =>
    Proc.bind (send_commitment true (env.commitEnvs 0)) fun _ =>
    Proc.bind (user_confirmation_request env.confirmationReply) fun ok =>
    Proc.ret ok
  | .passkeyEntry =>
    Proc.bind
      (if initiator.io_capability = .keyboardOnly then
         user_passkey_request env.passkeyCmds
       else
         Proc.bind (sendHci (.userPasskeyNotif 0)) fun _ => Proc.ret true)
      fun ok =>
    if ok then
      Proc.bind (send_commitment_rounds env.commitEnvs
        PASSKEY_ENTRY_REPEAT_NUMBER) fun _ =>
      Proc.ret true
    else Proc.ret false
  | .outOfBand =>
    Proc.bind
      (if initiator.oob_data_present ≠ .notPresent then
         remote_oob_data_request env.oobReply
       else Proc.ret true)
      fun ok =>
    if ok then
      Proc.bind (send_commitment false (env.commitEnvs 0)) fun _ =>
      Proc.ret true
    else Proc.ret false

/-- `initiate` from the source: capability exchange, key exchange,
Stage 1 with failure routing, Stage 2 (DH-key check), challenge /
response, link-key notification.  The boolean result is the source's
`Ok`/`Err`. -/
def initiate (env : InitiateEnv) : Proc Bool :=
  Proc.bind (initiate_capability env.hostReply env.peerRes) fun caps =>
  Proc.bind (initiate_key_exchange env) fun peer_public_key =>
  Proc.bind (initiate_stage1 (authentication_method caps.1 caps.2) caps.1 env)
    fun stage1_ok =>
  if !stage1_ok then
    Proc.bind (sendLmp (.numericComparaisonFailed 0)) fun _ =>
    Proc.bind (sendHci (.simplePairingComplete .authenticationFailure)) fun _ =>
    Proc.ret false
  else
    Proc.bind (sendAcceptedLmp
      (.dhkeyCheck 0 (zeros CONFIRMATION_VALUE_SIZE)) env.dhkeyAccepted)
      fun dhkey_ok =>
    if !dhkey_ok then
      Proc.bind (sendHci (.simplePairingComplete .authenticationFailure))
        fun _ =>
      Proc.ret false
    else
      Proc.bind (recvLmp (.dhkeyCheck 0 env.peerDhkey)) fun _ =>
      Proc.bind (sendLmp (.accepted 0 .dhkeyCheck)) fun _ =>
      Proc.bind (sendHci (.simplePairingComplete .success)) fun _ =>
      Proc.bind (send_challenge env.sendChallengeOk) fun auth_ok =>
      Proc.bind receive_challenge fun _ =>
      if !auth_ok then Proc.ret false
      else
        Proc.bind (sendHci (.linkKeyNotif
          (link_key_type (authentication_method caps.1 caps.2)
            peer_public_key)
          (zeros 16))) fun _ =>
        Proc.ret true

/-- The environment of one `respond` run. -/
structure RespondEnv where
  /-- Fields of the initiating peer's `IoCapabilityReq` (the procedure's
  argument). -/
  request : AuthenticationParams
  /-- Fields of the host's `IoCapabilityRequestReply`. -/
  hostReply : AuthenticationParams
  /-- `payload_length` of the peer's `EncapsulatedHeader`. -/
  peerKeyHeaderLen : Nat
  /-- Data of the peer's `EncapsulatedPayload` frames, in order. -/
  peerKeyChunks : List (List Nat)
  /-- Peer decisions for `send_public_key`, header first. -/
  sendKeyResponses : List Bool
  /-- Host decision on `UserConfirmationRequest`. -/
  confirmationReply : Bool
  /-- Host commands answering `UserPasskeyRequest`. -/
  passkeyCmds : List PasskeyCmd
  /-- Host decision on `RemoteOobDataRequest`. -/
  oobReply : Bool
  /-- Peer inputs of each commitment round. -/
  commitEnvs : Nat → CommitmentEnv
  /-- Stage-2 gate: true when the peer sends `DhkeyCheck`, false when it
  sends `NumericComparaisonFailed`. -/
  gate : Bool
  /-- Confirmation value of the peer's `DhkeyCheck`. -/
  peerDhkey : List Nat
  /-- Peer decision on our `DhkeyCheck`. -/
  dhkeyAccepted : Bool
  /-- Result of `authentication::send_challenge`. -/
  sendChallengeOk : Bool

/-- Capability exchange of `respond`: surface the initiator's request,
host round-trip, mirror the host reply to the peer as
`IoCapabilityRes`. -/
def respond_capability (request hostReply : AuthenticationParams) :
    Proc (AuthenticationParams × AuthenticationParams) :=
  Proc.bind (sendHci (.ioCapabilityResponse request.io_capability
    request.oob_data_present request.authentication_requirements)) fun _ =>
  Proc.bind (sendHci .ioCapabilityRequest) fun _ =>
  Proc.bind (sendHci (.ioCapabilityRequestReplyComplete .success)) fun _ =>
  Proc.bind (sendLmp (.ioCapabilityRes 0 hostReply.io_capability
    hostReply.oob_data_present hostReply.authentication_requirements)) fun _ =>
  Proc.ret (request, hostReply)

/-- Public-key exchange of `respond`: receive the peer key first, then
generate and send a local key of the same size. -/
def respond_key_exchange (env : RespondEnv) : Proc PublicKey :=
  Proc.bind (receive_public_key 0 env.peerKeyHeaderLen env.peerKeyChunks)
    fun peer_public_key =>
  match PublicKey.generate peer_public_key.get_size with
  | none => Proc.stop
  | some public_key =>
    Proc.bind (send_public_key 0 public_key env.sendKeyResponses) fun _ =>
    Proc.ret peer_public_key

/-- Authentication Stage 1 of `respond`: returns the
`negative_user_confirmation` flag.  In the Passkey and OOB branches the
host interaction result is deliberately discarded. -/
def respond_stage1 (auth_method : AuthenticationMethod)
    (responder : AuthenticationParams) (env : RespondEnv) : Proc Bool :=
  match auth_method with
  | .numericComparaisonJustWork | .numericComparaisonUserConfirm =>
    Proc.bind (receive_commitment true (env.commitEnvs 0)) fun _ =>
    Proc.bind (user_confirmation_request env.confirmationReply) fun ok =>
    Proc.ret (!ok)
  | .passkeyEntry =>
    Proc.bind
      (if responder.io_capability = .keyboardOnly then
         Proc.bind (user_passkey_request env.passkeyCmds) fun _ => Proc.ret ()
       else sendHci (.userPasskeyNotif 0))
      fun _ =>
    Proc.bind (receive_commitment_rounds env.commitEnvs
      PASSKEY_ENTRY_REPEAT_NUMBER) fun _ =>
    Proc.ret false
  | .outOfBand =>
    Proc.bind
      (if responder.oob_data_present ≠ .notPresent then
         Proc.bind (remote_oob_data_request env.oobReply) fun _ => Proc.ret ()
       else Proc.ret ())
      fun _ =>
    Proc.bind (receive_commitment false (env.commitEnvs 0)) fun _ =>
    Proc.ret false

/-- `respond` from the source: capability exchange, key exchange,
Stage 1, the Stage-2 gate (`NumericComparaisonFailed` or `DhkeyCheck`),
the negative-confirmation rejection, Stage 2, challenge/response,
link-key notification. -/
def respond (env : RespondEnv) : Proc Bool :=
  Proc.bind (respond_capability env.request env.hostReply) fun caps =>
  Proc.bind (respond_key_exchange env) fun peer_public_key =>
  Proc.bind (respond_stage1 (authentication_method caps.1 caps.2) caps.2 env)
    fun negative_user_confirmation =>
  if !env.gate then
    Proc.bind (recvLmp (.numericComparaisonFailed 0)) fun _ =>
    Proc.bind (sendHci (.simplePairingComplete .authenticationFailure)) fun _ =>
    Proc.ret false
  else
    Proc.bind (recvLmp (.dhkeyCheck 0 env.peerDhkey)) fun _ =>
    if negative_user_confirmation then
      Proc.bind (sendLmp (.notAccepted 0 .dhkeyCheck .authenticationFailure))
        fun _ =>
      Proc.bind (sendHci (.simplePairingComplete .authenticationFailure))
        fun _ =>
      Proc.ret false
    else
      Proc.bind (sendLmp (.accepted 0 .dhkeyCheck)) fun _ =>
      Proc.bind (sendAcceptedLmp
        (.dhkeyCheck 0 (zeros CONFIRMATION_VALUE_SIZE)) env.dhkeyAccepted)
        fun _ =>
      Proc.bind (sendHci (.simplePairingComplete .success)) fun _ =>
      Proc.bind receive_challenge fun _ =>
      Proc.bind (send_challenge env.sendChallengeOk) fun auth_ok =>
      if !auth_ok then Proc.ret false
      else
        Proc.bind (sendHci (.linkKeyNotif
          (link_key_type (authentication_method caps.1 caps.2)
            peer_public_key)
          (zeros 16))) fun _ =>
        Proc.ret true

/-! ### Trace observables -/

/-- Count the sent LMP packets satisfying `p`. -/
def countSent (p : LmpPacket → Bool) (t : List Event) : Nat :=
  t.countP fun e => match e with
    | .lmpSent q => p q
    | _ => false

/-- Count the received LMP packets satisfying `p`. -/
def countRecv (p : LmpPacket → Bool) (t : List Event) : Nat :=
  t.countP fun e => match e with
    | .lmpRecv q => p q
    | _ => false

/-- Count the sent HCI events satisfying `p`. -/
def countHci (p : HciEvent → Bool) (t : List Event) : Nat :=
  t.countP fun e => match e with
    | .hciSent h => p h
    | _ => false

/-- All sent LMP packets satisfy `p`. -/
def allSent (p : LmpPacket → Bool) (t : List Event) : Bool :=
  t.all fun e => match e with
    | .lmpSent q => p q
    | _ => true

/-- The trace performs no HCI event at all. -/
def noHci (t : List Event) : Bool :=
  t.all fun e => match e with
    | .hciSent _ => false
    | _ => true

/-- All sent HCI events satisfy `p`. -/
def allHci (p : HciEvent → Bool) (t : List Event) : Bool :=
  t.all fun e => match e with
    | .hciSent h => p h
    | _ => true

/-- All received LMP packets satisfy `p`. -/
def allRecv (p : LmpPacket → Bool) (t : List Event) : Bool :=
  t.all fun e => match e with
    | .lmpRecv q => p q
    | _ => true

/-- The LMP packets the key transfer may receive. -/
def keyExchangeRecvPacket : LmpPacket → Bool
  | .encapsulatedHeader _ _ _ _ => true
  | .encapsulatedPayload _ _ => true
  | _ => false

/-- The trace touches no LMP packet at all (pure host interaction). -/
def noLmp (t : List Event) : Bool :=
  t.all fun e => match e with
    | .hciSent _ => true
    | _ => false

/-- Recognizer for `SimplePairingConfirm`. -/
def isConfirmP : LmpPacket → Bool
  | .simplePairingConfirm _ _ => true
  | _ => false

/-- Recognizer for `EncapsulatedPayload`. -/
def isPayloadP : LmpPacket → Bool
  | .encapsulatedPayload _ _ => true
  | _ => false

/-- Recognizer for `Accepted` frames acknowledging `DhkeyCheck`. -/
def isAcceptedDhkeyP : LmpPacket → Bool
  | .accepted _ .dhkeyCheck => true
  | _ => false

/-- Recognizer for `DhkeyCheck`. -/
def isDhkeyCheckP : LmpPacket → Bool
  | .dhkeyCheck _ _ => true
  | _ => false

/-- Recognizer for `SimplePairingComplete` with a given status. -/
def isSpcH (s : ErrorCode) : HciEvent → Bool
  | .simplePairingComplete s' => s' == s
  | _ => false

/-- Recognizer for `LinkKeyNotification`. -/
def isLknH : HciEvent → Bool
  | .linkKeyNotif _ _ => true
  | _ => false

/-- HCI events that are neither `SimplePairingComplete` nor
`LinkKeyNotification`. -/
def benignHci : HciEvent → Bool
  | .simplePairingComplete _ => false
  | .linkKeyNotif _ _ => false
  | _ => true

/-- Number of `SimplePairingComplete{s}` events in a trace. -/
def spcCount (s : ErrorCode) (t : List Event) : Nat := countHci (isSpcH s) t

/-- Number of `LinkKeyNotification` events in a trace. -/
def lknCount (t : List Event) : Nat := countHci isLknH t

/-- The LMP packets a commitment round may send. -/
def commitmentPacket : LmpPacket → Bool
  | .simplePairingConfirm 0 _ => true
  | .simplePairingNumber 0 _ => true
  | .accepted 0 .simplePairingNumber => true
  | _ => false

/-- The LMP packets the key transfer (at transaction id 0) may send. -/
def keyExchangePacket : LmpPacket → Bool
  | .encapsulatedHeader 0 1 1 _ => true
  | .encapsulatedPayload 0 _ => true
  | .accepted 0 .encapsulatedHeader => true
  | .accepted 0 .encapsulatedPayload => true
  | _ => false

/-! ### Concrete environments used to exercise the embedding -/

/-- A commitment-round environment whose inputs are the all-zero values
the stubbed crypto expects. -/
def commitEnv0 : CommitmentEnv :=
  { peerConfirm := zeros 16, peerNonce := zeros 16, numberAccepted := true }

/-- An `initiate` environment for a fully successful Numeric Comparison
(user-confirm) run over P-192 keys. -/
def envInit0 : InitiateEnv :=
  { hostReply := ⟨.displayYesNo, .notPresent, .generalBondingMitmProtection⟩
    peerRes := ⟨.displayYesNo, .notPresent, .generalBondingMitmProtection⟩
    secureConnections := false
    sendKeyResponses := [true, true, true, true]
    peerKeyHeaderLen := 48
    peerKeyChunks := List.replicate 3 (zeros 16)
    confirmationReply := true
    passkeyCmds := [.reply]
    oobReply := true
    commitEnvs := fun _ => commitEnv0
    dhkeyAccepted := true
    peerDhkey := zeros 16
    sendChallengeOk := true }

/-- A `respond` environment for a fully successful Numeric Comparison
(user-confirm) run over P-192 keys. -/
def envResp0 : RespondEnv :=
  { request := ⟨.displayYesNo, .notPresent, .generalBondingMitmProtection⟩
    hostReply := ⟨.displayYesNo, .notPresent, .generalBondingMitmProtection⟩
    peerKeyHeaderLen := 48
    peerKeyChunks := List.replicate 3 (zeros 16)
    sendKeyResponses := [true, true, true, true]
    confirmationReply := true
    passkeyCmds := [.reply]
    oobReply := true
    commitEnvs := fun _ => commitEnv0
    gate := true
    peerDhkey := zeros 16
    dhkeyAccepted := true
    sendChallengeOk := true }

end SSP

set_option maxRecDepth 4096 in
/-- C1: `authentication_method` returns the first matching rule of the
specified order: OutOfBand if either side's OOB data is present; else
JustWork if neither side requires MITM protection; else PasskeyEntry if
one side is KeyboardOnly and the other is not NoInputNoOutput; else
UserConfirm if both sides are DisplayYesNo; else JustWork. -/
theorem SSP.c1_authentication_method_follows_spec_order :
    ∀ i r : SSP.AuthenticationParams,
      SSP.authentication_method i r = SSP.authentication_method_spec i r := by
  decide

set_option maxRecDepth 4096 in
/-- C8: `authentication_method` is symmetric in its two arguments. -/
theorem SSP.c8_authentication_method_symmetric :
    ∀ i r : SSP.AuthenticationParams,
      SSP.authentication_method i r = SSP.authentication_method r i := by
  decide

/-- C3: `link_key_type` is total on both key variants and all four
methods; it returns an Authenticated key type exactly when the method is
not NumericComparaisonJustWork, and it always preserves the key's
P-192/P-256 variant. -/
theorem SSP.c3_link_key_type_authenticated_iff_not_just_work :
    ∀ (m : SSP.AuthenticationMethod) (k : SSP.PublicKey),
      (SSP.link_key_type m k).isAuthenticated =
          (m != .numericComparaisonJustWork) ∧
        (SSP.link_key_type m k).isP256 = k.isP256 := by
  intro m k
  cases m <;> cases k <;> exact ⟨rfl, rfl⟩

/-! ### Trace algebra -/

theorem SSP.bind_fst_none {α β : Type} (t : List SSP.Event)
    (f : α → SSP.Proc β) : SSP.Proc.bind (t, none) f = (t, none) := rfl

theorem SSP.bind_fst_some {α β : Type} (t : List SSP.Event) (a : α)
    (f : α → SSP.Proc β) :
    SSP.Proc.bind (t, some a) f = (t ++ (f a).1, (f a).2) := rfl

theorem SSP.countSent_append (p : SSP.LmpPacket → Bool)
    (t1 t2 : List SSP.Event) :
    SSP.countSent p (t1 ++ t2) = SSP.countSent p t1 + SSP.countSent p t2 :=
  List.countP_append _ _ _

theorem SSP.countRecv_append (p : SSP.LmpPacket → Bool)
    (t1 t2 : List SSP.Event) :
    SSP.countRecv p (t1 ++ t2) = SSP.countRecv p t1 + SSP.countRecv p t2 :=
  List.countP_append _ _ _

theorem SSP.countHci_append (p : SSP.HciEvent → Bool)
    (t1 t2 : List SSP.Event) :
    SSP.countHci p (t1 ++ t2) = SSP.countHci p t1 + SSP.countHci p t2 :=
  List.countP_append _ _ _

theorem SSP.allSent_append (p : SSP.LmpPacket → Bool)
    (t1 t2 : List SSP.Event) :
    SSP.allSent p (t1 ++ t2) = (SSP.allSent p t1 && SSP.allSent p t2) :=
  List.all_append

theorem SSP.noHci_append (t1 t2 : List SSP.Event) :
    SSP.noHci (t1 ++ t2) = (SSP.noHci t1 && SSP.noHci t2) :=
  List.all_append

theorem SSP.allHci_append (p : SSP.HciEvent → Bool)
    (t1 t2 : List SSP.Event) :
    SSP.allHci p (t1 ++ t2) = (SSP.allHci p t1 && SSP.allHci p t2) :=
  List.all_append

theorem SSP.allHci_of_noHci {p : SSP.HciEvent → Bool} {t : List SSP.Event}
    (h : SSP.noHci t = true) : SSP.allHci p t = true := by
  rw [SSP.allHci, List.all_eq_true]
  rw [SSP.noHci, List.all_eq_true] at h
  intro e he
  have := h e he
  cases e <;> simp_all

theorem SSP.countHci_eq_zero_of_allHci {p q : SSP.HciEvent → Bool}
    {t : List SSP.Event} (h : SSP.allHci q t = true)
    (himp : ∀ x, q x = true → p x = false) : SSP.countHci p t = 0 := by
  rw [SSP.countHci, List.countP_eq_zero]
  rw [SSP.allHci, List.all_eq_true] at h
  intro e he
  have := h e he
  cases e <;> simp_all [himp]

theorem SSP.countHci_eq_zero_of_noHci {p : SSP.HciEvent → Bool}
    {t : List SSP.Event} (h : SSP.noHci t = true) : SSP.countHci p t = 0 := by
  rw [SSP.countHci, List.countP_eq_zero]
  rw [SSP.noHci, List.all_eq_true] at h
  intro e he
  have := h e he
  cases e <;> simp_all

theorem SSP.countSent_eq_zero_of_allSent {p q : SSP.LmpPacket → Bool}
    {t : List SSP.Event} (h : SSP.allSent q t = true)
    (himp : ∀ x, q x = true → p x = false) : SSP.countSent p t = 0 := by
  rw [SSP.countSent, List.countP_eq_zero]
  rw [SSP.allSent, List.all_eq_true] at h
  intro e he
  have := h e he
  cases e <;> simp_all [himp]

theorem SSP.allSent_mono {p q : SSP.LmpPacket → Bool} {t : List SSP.Event}
    (h : SSP.allSent q t = true)
    (himp : ∀ x, q x = true → p x = true) : SSP.allSent p t = true := by
  rw [SSP.allSent, List.all_eq_true]
  rw [SSP.allSent, List.all_eq_true] at h
  intro e he
  have := h e he
  cases e <;> simp_all [himp]

theorem SSP.countSent_eq_zero_of_noLmp {p : SSP.LmpPacket → Bool}
    {t : List SSP.Event} (h : SSP.noLmp t = true) : SSP.countSent p t = 0 := by
  rw [SSP.countSent, List.countP_eq_zero]
  rw [SSP.noLmp, List.all_eq_true] at h
  intro e he
  have := h e he
  cases e <;> simp_all

theorem SSP.countRecv_eq_zero_of_noLmp {p : SSP.LmpPacket → Bool}
    {t : List SSP.Event} (h : SSP.noLmp t = true) : SSP.countRecv p t = 0 := by
  rw [SSP.countRecv, List.countP_eq_zero]
  rw [SSP.noLmp, List.all_eq_true] at h
  intro e he
  have := h e he
  cases e <;> simp_all

theorem SSP.allSent_of_noLmp {p : SSP.LmpPacket → Bool}
    {t : List SSP.Event} (h : SSP.noLmp t = true) : SSP.allSent p t = true := by
  rw [SSP.allSent, List.all_eq_true]
  rw [SSP.noLmp, List.all_eq_true] at h
  intro e he
  have := h e he
  cases e <;> simp_all

/-! ### Commitment-round lemmas -/

theorem SSP.send_commitment_noHci (s : Bool) (e : SSP.CommitmentEnv) :
    SSP.noHci (SSP.send_commitment s e).1 = true := by
  by_cases h : e.peerConfirm = SSP.zeros 16 <;> cases s <;>
    simp [SSP.send_commitment, SSP.Proc.bind, SSP.sendLmp, SSP.recvLmp,
      SSP.sendAcceptedLmp, SSP.Proc.ret, SSP.Proc.stop, SSP.noHci,
      SSP.COMMITMENT_VALUE_SIZE, SSP.NONCE_SIZE, h]

theorem SSP.send_commitment_allSent (s : Bool) (e : SSP.CommitmentEnv) :
    SSP.allSent SSP.commitmentPacket (SSP.send_commitment s e).1 = true := by
  by_cases h : e.peerConfirm = SSP.zeros 16 <;> cases s <;>
    simp [SSP.send_commitment, SSP.Proc.bind, SSP.sendLmp, SSP.recvLmp,
      SSP.sendAcceptedLmp, SSP.Proc.ret, SSP.Proc.stop, SSP.allSent,
      SSP.commitmentPacket, SSP.COMMITMENT_VALUE_SIZE, SSP.NONCE_SIZE, h]

theorem SSP.send_commitment_sent_confirm (s : Bool) (e : SSP.CommitmentEnv) :
    SSP.countSent SSP.isConfirmP (SSP.send_commitment s e).1 =
      if s then 0 else 1 := by
  by_cases h : e.peerConfirm = SSP.zeros 16 <;> cases s <;>
    simp [SSP.send_commitment, SSP.Proc.bind, SSP.sendLmp, SSP.recvLmp,
      SSP.sendAcceptedLmp, SSP.Proc.ret, SSP.Proc.stop, SSP.countSent,
      SSP.isConfirmP, List.countP_cons, SSP.COMMITMENT_VALUE_SIZE,
      SSP.NONCE_SIZE, h]

theorem SSP.send_commitment_recv_confirm (s : Bool) (e : SSP.CommitmentEnv) :
    SSP.countRecv SSP.isConfirmP (SSP.send_commitment s e).1 = 1 := by
  by_cases h : e.peerConfirm = SSP.zeros 16 <;> cases s <;>
    simp [SSP.send_commitment, SSP.Proc.bind, SSP.sendLmp, SSP.recvLmp,
      SSP.sendAcceptedLmp, SSP.Proc.ret, SSP.Proc.stop, SSP.countRecv,
      SSP.isConfirmP, List.countP_cons, SSP.COMMITMENT_VALUE_SIZE,
      SSP.NONCE_SIZE, h]

theorem SSP.send_commitment_result (s : Bool) (e : SSP.CommitmentEnv) :
    (SSP.send_commitment s e).2 =
      if e.peerConfirm = SSP.zeros 16 then some () else none := by
  by_cases h : e.peerConfirm = SSP.zeros 16 <;> cases s <;>
    simp [SSP.send_commitment, SSP.Proc.bind, SSP.sendLmp, SSP.recvLmp,
      SSP.sendAcceptedLmp, SSP.Proc.ret, SSP.Proc.stop,
      SSP.COMMITMENT_VALUE_SIZE, SSP.NONCE_SIZE, h]

theorem SSP.receive_commitment_noHci (s : Bool) (e : SSP.CommitmentEnv) :
    SSP.noHci (SSP.receive_commitment s e).1 = true := by
  by_cases h : e.peerConfirm = SSP.zeros 16 <;> cases s <;>
    simp [SSP.receive_commitment, SSP.Proc.bind, SSP.sendLmp, SSP.recvLmp,
      SSP.sendAcceptedLmp, SSP.Proc.ret, SSP.Proc.stop, SSP.noHci,
      SSP.COMMITMENT_VALUE_SIZE, SSP.NONCE_SIZE, h]

theorem SSP.receive_commitment_allSent (s : Bool) (e : SSP.CommitmentEnv) :
    SSP.allSent SSP.commitmentPacket (SSP.receive_commitment s e).1 = true := by
  by_cases h : e.peerConfirm = SSP.zeros 16 <;> cases s <;>
    simp [SSP.receive_commitment, SSP.Proc.bind, SSP.sendLmp, SSP.recvLmp,
      SSP.sendAcceptedLmp, SSP.Proc.ret, SSP.Proc.stop, SSP.allSent,
      SSP.commitmentPacket, SSP.COMMITMENT_VALUE_SIZE, SSP.NONCE_SIZE, h]

theorem SSP.receive_commitment_recv_confirm (s : Bool) (e : SSP.CommitmentEnv) :
    SSP.countRecv SSP.isConfirmP (SSP.receive_commitment s e).1 =
      if s then 0 else 1 := by
  by_cases h : e.peerConfirm = SSP.zeros 16 <;> cases s <;>
    simp [SSP.receive_commitment, SSP.Proc.bind, SSP.sendLmp, SSP.recvLmp,
      SSP.sendAcceptedLmp, SSP.Proc.ret, SSP.Proc.stop, SSP.countRecv,
      SSP.isConfirmP, List.countP_cons, SSP.COMMITMENT_VALUE_SIZE,
      SSP.NONCE_SIZE, h]

theorem SSP.receive_commitment_result (s : Bool) (e : SSP.CommitmentEnv) :
    (SSP.receive_commitment s e).2 =
      if s = false ∧ e.peerConfirm ≠ SSP.zeros 16 then none else some () := by
  by_cases h : e.peerConfirm = SSP.zeros 16 <;> cases s <;>
    simp [SSP.receive_commitment, SSP.Proc.bind, SSP.sendLmp, SSP.recvLmp,
      SSP.sendAcceptedLmp, SSP.Proc.ret, SSP.Proc.stop,
      SSP.COMMITMENT_VALUE_SIZE, SSP.NONCE_SIZE, h]

theorem SSP.receive_commitment_sent_confirm (s : Bool) (e : SSP.CommitmentEnv)
    (h : (SSP.receive_commitment s e).2 = some ()) :
    SSP.countSent SSP.isConfirmP (SSP.receive_commitment s e).1 = 1 := by
  rw [SSP.receive_commitment_result] at h
  by_cases hc : e.peerConfirm = SSP.zeros 16 <;> cases s <;>
    simp_all [SSP.receive_commitment, SSP.Proc.bind, SSP.sendLmp, SSP.recvLmp,
      SSP.sendAcceptedLmp, SSP.Proc.ret, SSP.Proc.stop, SSP.countSent,
      SSP.isConfirmP, List.countP_cons, SSP.COMMITMENT_VALUE_SIZE,
      SSP.NONCE_SIZE]

/-! ### Commitment-loop lemmas -/

theorem SSP.send_commitment_rounds_noHci (envs : Nat → SSP.CommitmentEnv)
    (n : Nat) : SSP.noHci (SSP.send_commitment_rounds envs n).1 = true := by
  induction n with
  | zero => rfl
  | succ n ih =>
    have hn := SSP.send_commitment_noHci false (envs n)
    rcases hsc : SSP.send_commitment false (envs n) with ⟨t, o⟩
    rw [hsc] at hn
    cases o <;>
      simp_all [SSP.send_commitment_rounds, SSP.bind_fst_none,
        SSP.bind_fst_some, SSP.noHci_append]

theorem SSP.send_commitment_rounds_allSent (envs : Nat → SSP.CommitmentEnv)
    (n : Nat) :
    SSP.allSent SSP.commitmentPacket (SSP.send_commitment_rounds envs n).1
      = true := by
  induction n with
  | zero => rfl
  | succ n ih =>
    have hn := SSP.send_commitment_allSent false (envs n)
    rcases hsc : SSP.send_commitment false (envs n) with ⟨t, o⟩
    rw [hsc] at hn
    cases o <;>
      simp_all [SSP.send_commitment_rounds, SSP.bind_fst_none,
        SSP.bind_fst_some, SSP.allSent_append]

theorem SSP.send_commitment_rounds_counts (envs : Nat → SSP.CommitmentEnv)
    (n : Nat) (h : (SSP.send_commitment_rounds envs n).2 = some ()) :
    SSP.countSent SSP.isConfirmP (SSP.send_commitment_rounds envs n).1 = n ∧
      SSP.countRecv SSP.isConfirmP (SSP.send_commitment_rounds envs n).1 = n := by
  induction n with
  | zero => exact ⟨rfl, rfl⟩
  | succ n ih =>
    have hsent := SSP.send_commitment_sent_confirm false (envs n)
    have hrecv := SSP.send_commitment_recv_confirm false (envs n)
    rcases hsc : SSP.send_commitment false (envs n) with ⟨t, o⟩
    rw [hsc] at hsent hrecv
    rw [SSP.send_commitment_rounds, hsc] at h ⊢
    cases o with
    | none => simp [SSP.bind_fst_none] at h
    | some u =>
      rw [SSP.bind_fst_some] at h ⊢
      have := ih (by simpa using h)
      simp_all [SSP.countSent_append, SSP.countRecv_append]
      omega

theorem SSP.receive_commitment_rounds_noHci (envs : Nat → SSP.CommitmentEnv)
    (n : Nat) : SSP.noHci (SSP.receive_commitment_rounds envs n).1 = true := by
  induction n with
  | zero => rfl
  | succ n ih =>
    have hn := SSP.receive_commitment_noHci false (envs n)
    rcases hsc : SSP.receive_commitment false (envs n) with ⟨t, o⟩
    rw [hsc] at hn
    cases o <;>
      simp_all [SSP.receive_commitment_rounds, SSP.bind_fst_none,
        SSP.bind_fst_some, SSP.noHci_append]

theorem SSP.receive_commitment_rounds_allSent (envs : Nat → SSP.CommitmentEnv)
    (n : Nat) :
    SSP.allSent SSP.commitmentPacket (SSP.receive_commitment_rounds envs n).1
      = true := by
  induction n with
  | zero => rfl
  | succ n ih =>
    have hn := SSP.receive_commitment_allSent false (envs n)
    rcases hsc : SSP.receive_commitment false (envs n) with ⟨t, o⟩
    rw [hsc] at hn
    cases o <;>
      simp_all [SSP.receive_commitment_rounds, SSP.bind_fst_none,
        SSP.bind_fst_some, SSP.allSent_append]

theorem SSP.receive_commitment_rounds_counts (envs : Nat → SSP.CommitmentEnv)
    (n : Nat) (h : (SSP.receive_commitment_rounds envs n).2 = some ()) :
    SSP.countSent SSP.isConfirmP (SSP.receive_commitment_rounds envs n).1 = n ∧
      SSP.countRecv SSP.isConfirmP (SSP.receive_commitment_rounds envs n).1
        = n := by
  induction n with
  | zero => exact ⟨rfl, rfl⟩
  | succ n ih =>
    have hrecv := SSP.receive_commitment_recv_confirm false (envs n)
    rcases hsc : SSP.receive_commitment false (envs n) with ⟨t, o⟩
    rw [hsc] at hrecv
    rw [SSP.receive_commitment_rounds, hsc] at h ⊢
    cases o with
    | none => simp [SSP.bind_fst_none] at h
    | some u =>
      have hsent := SSP.receive_commitment_sent_confirm false (envs n)
        (by rw [hsc])
      rw [hsc] at hsent
      rw [SSP.bind_fst_some] at h ⊢
      have := ih (by simpa using h)
      simp_all [SSP.countSent_append, SSP.countRecv_append]
      omega

/-! ### Host-interaction lemmas -/

theorem SSP.user_confirmation_request_eval (b : Bool) :
    SSP.user_confirmation_request b =
      ([.hciSent (.userConfirmationRequest 0),
        .hciSent (if b then .userConfirmationRequestReplyComplete .success
          else .userConfirmationRequestNegativeReplyComplete .success)],
       some b) := by
  cases b <;> rfl

theorem SSP.user_confirmation_request_noLmp (b : Bool) :
    SSP.noLmp (SSP.user_confirmation_request b).1 = true := by
  cases b <;> rfl

theorem SSP.user_confirmation_request_benign (b : Bool) :
    SSP.allHci SSP.benignHci (SSP.user_confirmation_request b).1 = true := by
  cases b <;> rfl

theorem SSP.remote_oob_data_request_eval (b : Bool) :
    SSP.remote_oob_data_request b =
      ([.hciSent .remoteOobDataRequest,
        .hciSent (if b then .remoteOobDataRequestReplyComplete .success
          else .remoteOobDataRequestNegativeReplyComplete .success)],
       some b) := by
  cases b <;> rfl

theorem SSP.remote_oob_data_request_noLmp (b : Bool) :
    SSP.noLmp (SSP.remote_oob_data_request b).1 = true := by
  cases b <;> rfl

theorem SSP.remote_oob_data_request_benign (b : Bool) :
    SSP.allHci SSP.benignHci (SSP.remote_oob_data_request b).1 = true := by
  cases b <;> rfl

theorem SSP.user_passkey_loop_noLmp (cmds : List SSP.PasskeyCmd) :
    SSP.noLmp (SSP.user_passkey_loop cmds).1 = true := by
  induction cmds with
  | nil => rfl
  | cons c rest ih =>
    cases c <;>
      simp_all [SSP.user_passkey_loop, SSP.Proc.bind, SSP.sendHci,
        SSP.Proc.ret, SSP.noLmp]

theorem SSP.user_passkey_loop_benign (cmds : List SSP.PasskeyCmd) :
    SSP.allHci SSP.benignHci (SSP.user_passkey_loop cmds).1 = true := by
  induction cmds with
  | nil => rfl
  | cons c rest ih =>
    cases c <;>
      simp_all [SSP.user_passkey_loop, SSP.Proc.bind, SSP.sendHci,
        SSP.Proc.ret, SSP.allHci, SSP.benignHci]

theorem SSP.user_passkey_request_noLmp (cmds : List SSP.PasskeyCmd) :
    SSP.noLmp (SSP.user_passkey_request cmds).1 = true := by
  have h := SSP.user_passkey_loop_noLmp cmds
  rcases hl : SSP.user_passkey_loop cmds with ⟨t, o⟩
  rw [hl] at h
  cases o <;>
    simp_all [SSP.user_passkey_request, SSP.sendHci, SSP.bind_fst_none,
      SSP.bind_fst_some, SSP.noLmp]

theorem SSP.user_passkey_request_benign (cmds : List SSP.PasskeyCmd) :
    SSP.allHci SSP.benignHci (SSP.user_passkey_request cmds).1 = true := by
  have h := SSP.user_passkey_loop_benign cmds
  rcases hl : SSP.user_passkey_loop cmds with ⟨t, o⟩
  rw [hl] at h
  cases o <;>
    simp_all [SSP.user_passkey_request, SSP.sendHci, SSP.bind_fst_none,
      SSP.bind_fst_some, SSP.allHci, SSP.benignHci]

/-! ### Chunking lemmas -/

theorem SSP.chunksAux_spec {α : Type} :
    ∀ (k : Nat) (l : List α) (fuel : Nat),
      l.length = 16 * k → l.length ≤ fuel →
      (SSP.chunksAux fuel 16 l).length = k ∧
        ∀ c ∈ SSP.chunksAux fuel 16 l, c.length = 16 := by
  intro k
  induction k with
  | zero =>
    intro l fuel hl _
    have : l = [] := List.eq_nil_of_length_eq_zero (by omega)
    subst this
    cases fuel <;> exact ⟨rfl, by intro c hc; cases hc⟩
  | succ k ih =>
    intro l fuel hl hf
    match l, fuel with
    | [], _ => simp at hl
    | x :: xs, 0 => simp at hf
    | x :: xs, f + 1 =>
      have hlen : (x :: xs).length = 16 * (k + 1) := hl
      have hdroplen : ((x :: xs).drop 16).length = 16 * k := by
        rw [List.length_drop]; omega
      have hdropfuel : ((x :: xs).drop 16).length ≤ f := by
        rw [List.length_drop]
        have : (x :: xs).length ≤ f + 1 := hf
        omega
      obtain ⟨ihlen, ihmem⟩ := ih ((x :: xs).drop 16) f hdroplen hdropfuel
      constructor
      · simp only [SSP.chunksAux, List.length_cons]
        rw [ihlen]
      · intro c hc
        rw [SSP.chunksAux] at hc
        rcases List.mem_cons.mp hc with hc | hc
        · subst hc
          rw [List.length_take]
          omega
        · exact ihmem c hc

theorem SSP.chunks_spec {α : Type} (k : Nat) (l : List α)
    (hl : l.length = 16 * k) :
    (SSP.chunks 16 l).length = k ∧ ∀ c ∈ SSP.chunks 16 l, c.length = 16 :=
  SSP.chunksAux_spec k l l.length hl (Nat.le_refl _)

/-! ### Key-transfer lemmas -/

theorem SSP.send_chunks_indep (tid : Nat) :
    ∀ (cs : List (List Nat)) (rs1 rs2 : List Bool),
      SSP.send_chunks tid cs rs1 = SSP.send_chunks tid cs rs2 := by
  intro cs
  induction cs with
  | nil => intro rs1 rs2; rfl
  | cons c rest ih =>
    intro rs1 rs2
    by_cases h : c.length = 16 <;>
      simp [SSP.send_chunks, h, SSP.Proc.bind, SSP.sendAcceptedLmp, ih rs1.tail rs2.tail]

theorem SSP.send_chunks_noHci (tid : Nat) :
    ∀ (cs : List (List Nat)) (rs : List Bool),
      SSP.noHci (SSP.send_chunks tid cs rs).1 = true := by
  intro cs
  induction cs with
  | nil => intro rs; rfl
  | cons c rest ih =>
    intro rs
    by_cases h : c.length = 16 <;>
      simp [SSP.send_chunks, h, SSP.Proc.bind, SSP.sendAcceptedLmp,
        SSP.Proc.stop, SSP.noHci, ih rs.tail]
    · have := ih rs.tail
      rcases hr : SSP.send_chunks tid rest rs.tail with ⟨t, o⟩
      rw [hr] at this
      cases o <;> simp_all [SSP.bind_fst_none, SSP.bind_fst_some, SSP.noHci]

theorem SSP.send_chunks_allSent :
    ∀ (cs : List (List Nat)) (rs : List Bool),
      SSP.allSent SSP.keyExchangePacket (SSP.send_chunks 0 cs rs).1 = true := by
  intro cs
  induction cs with
  | nil => intro rs; rfl
  | cons c rest ih =>
    intro rs
    by_cases h : c.length = 16
    · have := ih rs.tail
      rcases hr : SSP.send_chunks 0 rest rs.tail with ⟨t, o⟩
      rw [hr] at this
      cases o <;>
        simp_all [SSP.send_chunks, h, SSP.Proc.bind, SSP.sendAcceptedLmp,
          SSP.allSent, SSP.keyExchangePacket]
    · simp [SSP.send_chunks, h, SSP.Proc.stop, SSP.allSent]

theorem SSP.send_chunks_complete (tid : Nat) :
    ∀ (cs : List (List Nat)) (rs : List Bool),
      (∀ c ∈ cs, c.length = 16) →
      (SSP.send_chunks tid cs rs).2 = some () ∧
        SSP.countSent SSP.isPayloadP (SSP.send_chunks tid cs rs).1
          = cs.length := by
  intro cs
  induction cs with
  | nil => intro rs _; exact ⟨rfl, rfl⟩
  | cons c rest ih =>
    intro rs hall
    have hc : c.length = 16 := hall c (List.mem_cons_self _ _)
    obtain ⟨ihres, ihcount⟩ := ih rs.tail
      (fun d hd => hall d (List.mem_cons_of_mem _ hd))
    rcases hr : SSP.send_chunks tid rest rs.tail with ⟨t, o⟩
    rw [hr] at ihres ihcount
    subst ihres
    simp_all [SSP.send_chunks, hc, SSP.Proc.bind, SSP.sendAcceptedLmp,
      SSP.countSent, SSP.isPayloadP, List.countP_cons, List.countP_append]

theorem SSP.receive_chunks_noHci (tid : Nat) :
    ∀ (slots ds : List (List Nat)),
      SSP.noHci (SSP.receive_chunks tid slots ds).1 = true := by
  intro slots
  induction slots with
  | nil => intro ds; rfl
  | cons slot rest ih =>
    intro ds
    cases ds with
    | nil => rfl
    | cons d ds =>
      by_cases h : d.length = slot.length
      · have := ih ds
        rcases hr : SSP.receive_chunks tid rest ds with ⟨t, o⟩
        rw [hr] at this
        cases o <;>
          simp_all [SSP.receive_chunks, h, SSP.Proc.bind, SSP.recvLmp,
            SSP.sendLmp, SSP.Proc.ret, SSP.noHci]
      · simp [SSP.receive_chunks, h, SSP.Proc.bind, SSP.recvLmp,
          SSP.Proc.stop, SSP.noHci]

theorem SSP.receive_chunks_allSent :
    ∀ (slots ds : List (List Nat)),
      SSP.allSent SSP.keyExchangePacket
        (SSP.receive_chunks 0 slots ds).1 = true := by
  intro slots
  induction slots with
  | nil => intro ds; rfl
  | cons slot rest ih =>
    intro ds
    cases ds with
    | nil => rfl
    | cons d ds =>
      by_cases h : d.length = slot.length
      · have := ih ds
        rcases hr : SSP.receive_chunks 0 rest ds with ⟨t, o⟩
        rw [hr] at this
        cases o <;>
          simp_all [SSP.receive_chunks, h, SSP.Proc.bind, SSP.recvLmp,
            SSP.sendLmp, SSP.Proc.ret, SSP.allSent, SSP.keyExchangePacket]
      · simp [SSP.receive_chunks, h, SSP.Proc.bind, SSP.recvLmp,
          SSP.Proc.stop, SSP.allSent, SSP.keyExchangePacket]

theorem SSP.receive_chunks_recv_count (tid : Nat) :
    ∀ (slots ds : List (List Nat)) (data : List Nat),
      (SSP.receive_chunks tid slots ds).2 = some data →
      SSP.countRecv SSP.isPayloadP (SSP.receive_chunks tid slots ds).1
        = slots.length := by
  intro slots
  induction slots with
  | nil => intro ds data _; rfl
  | cons slot rest ih =>
    intro ds data h
    cases ds with
    | nil => simp [SSP.receive_chunks, SSP.Proc.stop] at h
    | cons d ds =>
      by_cases hl : d.length = slot.length
      · rcases hr : SSP.receive_chunks tid rest ds with ⟨t, o⟩
        rw [SSP.receive_chunks, hl] at h ⊢
        simp only [if_pos rfl] at h ⊢
        rw [hr] at h ⊢
        cases o with
        | none =>
          simp [SSP.Proc.bind, SSP.recvLmp, SSP.sendLmp, SSP.bind_fst_none,
            SSP.bind_fst_some] at h
        | some rest_data =>
          have := ih ds rest_data (by rw [hr])
          rw [hr] at this
          simp_all [SSP.Proc.bind, SSP.recvLmp, SSP.sendLmp, SSP.Proc.ret,
            SSP.countRecv, List.countP_cons, List.countP_append,
            SSP.isPayloadP]
      · simp [SSP.receive_chunks, hl, SSP.Proc.bind, SSP.recvLmp,
          SSP.Proc.stop] at h

theorem SSP.receive_chunks_complete (tid : Nat) :
    ∀ (slots ds : List (List Nat)),
      (∀ c ∈ slots, c.length = 16) → (∀ d ∈ ds, d.length = 16) →
      ds.length = slots.length →
      ∃ data, (SSP.receive_chunks tid slots ds).2 = some data := by
  intro slots
  induction slots with
  | nil => intro ds _ _ _; exact ⟨[], rfl⟩
  | cons slot rest ih =>
    intro ds hslots hds hlen
    cases ds with
    | nil => simp at hlen
    | cons d ds =>
      have hslot : slot.length = 16 := hslots slot (List.mem_cons_self _ _)
      have hd : d.length = 16 := hds d (List.mem_cons_self _ _)
      have hl : d.length = slot.length := by rw [hd, hslot]
      obtain ⟨data, hdata⟩ := ih ds
        (fun c hc => hslots c (List.mem_cons_of_mem _ hc))
        (fun c hc => hds c (List.mem_cons_of_mem _ hc))
        (by simpa using hlen)
      rcases hr : SSP.receive_chunks tid rest ds with ⟨t, o⟩
      rw [hr] at hdata
      subst hdata
      refine ⟨d ++ data, ?_⟩
      simp [SSP.receive_chunks, hl, SSP.Proc.bind, SSP.recvLmp, SSP.sendLmp,
        SSP.Proc.ret, hr]

theorem SSP.send_chunks_eval (tid : Nat) :
    ∀ (cs : List (List Nat)) (rs : List Bool),
      (∀ c ∈ cs, c.length = 16) →
      SSP.send_chunks tid cs rs =
        (cs.map (fun c => SSP.Event.lmpSent (.encapsulatedPayload tid c)),
         some ()) := by
  intro cs
  induction cs with
  | nil => intro rs _; rfl
  | cons c rest ih =>
    intro rs hall
    have hc : c.length = 16 := hall c (List.mem_cons_self _ _)
    have := ih rs.tail (fun d hd => hall d (List.mem_cons_of_mem _ hd))
    simp [SSP.send_chunks, hc, SSP.Proc.bind, SSP.sendAcceptedLmp, this]

theorem SSP.send_public_key_noHci (tid : Nat) (key : SSP.PublicKey)
    (rs : List Bool) :
    SSP.noHci (SSP.send_public_key tid key rs).1 = true := by
  have := SSP.send_chunks_noHci tid (SSP.chunks 16 key.as_slice) rs.tail
  rcases hr : SSP.send_chunks tid (SSP.chunks 16 key.as_slice) rs.tail
    with ⟨t, o⟩
  rw [hr] at this
  cases o <;>
    simp_all [SSP.send_public_key, SSP.Proc.bind, SSP.sendAcceptedLmp,
      SSP.noHci]

theorem SSP.send_public_key_allSent (key : SSP.PublicKey) (rs : List Bool) :
    SSP.allSent SSP.keyExchangePacket (SSP.send_public_key 0 key rs).1
      = true := by
  have := SSP.send_chunks_allSent (SSP.chunks 16 key.as_slice) rs.tail
  rcases hr : SSP.send_chunks 0 (SSP.chunks 16 key.as_slice) rs.tail
    with ⟨t, o⟩
  rw [hr] at this
  cases o <;>
    simp_all [SSP.send_public_key, SSP.Proc.bind, SSP.sendAcceptedLmp,
      SSP.allSent, SSP.keyExchangePacket]

theorem SSP.receive_public_key_noHci (tid payload_length : Nat)
    (ds : List (List Nat)) :
    SSP.noHci (SSP.receive_public_key tid payload_length ds).1 = true := by
  rw [SSP.receive_public_key]
  rcases hg : SSP.PublicKey.generate payload_length with _ | key
  · simp [SSP.Proc.bind, SSP.recvLmp, SSP.Proc.stop, SSP.noHci]
  · have := SSP.receive_chunks_noHci tid (SSP.chunks 16 key.as_slice) ds
    rcases hr : SSP.receive_chunks tid (SSP.chunks 16 key.as_slice) ds
      with ⟨t, o⟩
    rw [hr] at this
    cases o <;>
      simp_all [SSP.Proc.bind, SSP.recvLmp, SSP.sendLmp, SSP.Proc.ret,
        SSP.noHci]

theorem SSP.receive_public_key_allSent (payload_length : Nat)
    (ds : List (List Nat)) :
    SSP.allSent SSP.keyExchangePacket
      (SSP.receive_public_key 0 payload_length ds).1 = true := by
  rw [SSP.receive_public_key]
  rcases hg : SSP.PublicKey.generate payload_length with _ | key
  · simp [SSP.Proc.bind, SSP.recvLmp, SSP.Proc.stop, SSP.allSent]
  · have := SSP.receive_chunks_allSent (SSP.chunks 16 key.as_slice) ds
    rcases hr : SSP.receive_chunks 0 (SSP.chunks 16 key.as_slice) ds
      with ⟨t, o⟩
    rw [hr] at this
    cases o <;>
      simp_all [SSP.Proc.bind, SSP.recvLmp, SSP.sendLmp, SSP.Proc.ret,
        SSP.allSent, SSP.keyExchangePacket]

theorem SSP.initiate_key_exchange_noHci (env : SSP.InitiateEnv) :
    SSP.noHci (SSP.initiate_key_exchange env).1 = true := by
  rw [SSP.initiate_key_exchange]
  rcases hg : SSP.PublicKey.generate
      (if env.secureConnections then SSP.P256_PUBLIC_KEY_SIZE
       else SSP.P192_PUBLIC_KEY_SIZE) with _ | key
  · rfl
  · have h1 := SSP.send_public_key_noHci 0 key env.sendKeyResponses
    have h2 := SSP.receive_public_key_noHci 0 env.peerKeyHeaderLen
      env.peerKeyChunks
    rcases hs : SSP.send_public_key 0 key env.sendKeyResponses with ⟨t, o⟩
    rw [hs] at h1
    cases o <;>
      simp_all [SSP.bind_fst_none, SSP.bind_fst_some, SSP.noHci_append]

theorem SSP.initiate_key_exchange_allSent (env : SSP.InitiateEnv) :
    SSP.allSent SSP.keyExchangePacket (SSP.initiate_key_exchange env).1
      = true := by
  rw [SSP.initiate_key_exchange]
  rcases hg : SSP.PublicKey.generate
      (if env.secureConnections then SSP.P256_PUBLIC_KEY_SIZE
       else SSP.P192_PUBLIC_KEY_SIZE) with _ | key
  · rfl
  · have h1 := SSP.send_public_key_allSent key env.sendKeyResponses
    have h2 := SSP.receive_public_key_allSent env.peerKeyHeaderLen
      env.peerKeyChunks
    rcases hs : SSP.send_public_key 0 key env.sendKeyResponses with ⟨t, o⟩
    rw [hs] at h1
    cases o <;>
      simp_all [SSP.bind_fst_none, SSP.bind_fst_some, SSP.allSent_append]

theorem SSP.respond_key_exchange_noHci (env : SSP.RespondEnv) :
    SSP.noHci (SSP.respond_key_exchange env).1 = true := by
  rw [SSP.respond_key_exchange]
  have h1 := SSP.receive_public_key_noHci 0 env.peerKeyHeaderLen
    env.peerKeyChunks
  rcases hr : SSP.receive_public_key 0 env.peerKeyHeaderLen env.peerKeyChunks
    with ⟨t, o⟩
  rw [hr] at h1
  cases o with
  | none => simp_all [SSP.bind_fst_none]
  | some pk =>
    rcases hg : SSP.PublicKey.generate pk.get_size with _ | key
    · simp_all [SSP.bind_fst_some, SSP.Proc.stop, SSP.noHci_append]
    · have h2 := SSP.send_public_key_noHci 0 key env.sendKeyResponses
      rcases hs : SSP.send_public_key 0 key env.sendKeyResponses with ⟨t2, o2⟩
      rw [hs] at h2
      cases o2 <;>
        simp_all [SSP.bind_fst_none, SSP.bind_fst_some, SSP.noHci_append,
          SSP.noHci, SSP.Proc.ret]

theorem SSP.respond_key_exchange_allSent (env : SSP.RespondEnv) :
    SSP.allSent SSP.keyExchangePacket (SSP.respond_key_exchange env).1
      = true := by
  rw [SSP.respond_key_exchange]
  have h1 := SSP.receive_public_key_allSent env.peerKeyHeaderLen
    env.peerKeyChunks
  rcases hr : SSP.receive_public_key 0 env.peerKeyHeaderLen env.peerKeyChunks
    with ⟨t, o⟩
  rw [hr] at h1
  cases o with
  | none => simp_all [SSP.bind_fst_none]
  | some pk =>
    rcases hg : SSP.PublicKey.generate pk.get_size with _ | key
    · simp_all [SSP.bind_fst_some, SSP.Proc.stop, SSP.allSent_append,
        SSP.allSent]
    · have h2 := SSP.send_public_key_allSent key env.sendKeyResponses
      rcases hs : SSP.send_public_key 0 key env.sendKeyResponses with ⟨t2, o2⟩
      rw [hs] at h2
      cases o2 <;>
        simp_all [SSP.bind_fst_none, SSP.bind_fst_some, SSP.allSent_append,
          SSP.allSent, SSP.Proc.ret]

/-- C7: transferring a public key sends one `EncapsulatedHeader` whose
`payload_length` is the key size, followed by the key's 16-byte chunks
in order as `EncapsulatedPayload` frames — exactly 3 for a 48-byte
P-192 key and exactly 4 for a 64-byte P-256 key, with no short final
chunk; symmetrically, receiving a key of declared size 48 (resp. 64)
consumes exactly 3 (resp. 4) payload frames and yields a key of the
matching variant. -/
theorem SSP.c7_public_key_transfer_chunks :
    ∀ (tid : Nat) (data : List Nat) (rs : List Bool) (ds : List (List Nat)),
      (data.length = 48 →
        SSP.send_public_key tid (.P192 data) rs =
          (.lmpSent (.encapsulatedHeader tid 1 1 48) ::
            (SSP.chunks 16 data).map
              (fun c => SSP.Event.lmpSent (.encapsulatedPayload tid c)),
           some ()) ∧
        (SSP.chunks 16 data).length = 3 ∧
        ∀ c ∈ SSP.chunks 16 data, c.length = 16) ∧
      (data.length = 64 →
        SSP.send_public_key tid (.P256 data) rs =
          (.lmpSent (.encapsulatedHeader tid 1 1 64) ::
            (SSP.chunks 16 data).map
              (fun c => SSP.Event.lmpSent (.encapsulatedPayload tid c)),
           some ()) ∧
        (SSP.chunks 16 data).length = 4 ∧
        ∀ c ∈ SSP.chunks 16 data, c.length = 16) ∧
      ((∀ d ∈ ds, d.length = 16) → ds.length = 3 →
        SSP.countRecv SSP.isPayloadP
            (SSP.receive_public_key tid 48 ds).1 = 3 ∧
        ∃ k, (SSP.receive_public_key tid 48 ds).2 = some k ∧
          k.isP256 = false) ∧
      ((∀ d ∈ ds, d.length = 16) → ds.length = 4 →
        SSP.countRecv SSP.isPayloadP
            (SSP.receive_public_key tid 64 ds).1 = 4 ∧
        ∃ k, (SSP.receive_public_key tid 64 ds).2 = some k ∧
          k.isP256 = true) := by
  intro tid data rs ds
  refine ⟨?_, ?_, ?_, ?_⟩
  · intro h
    obtain ⟨hlen, hmem⟩ := SSP.chunks_spec 3 data (by omega)
    refine ⟨?_, hlen, hmem⟩
    rw [SSP.send_public_key]
    simp only [SSP.PublicKey.as_slice, SSP.PublicKey.get_size,
      SSP.P192_PUBLIC_KEY_SIZE, SSP.sendAcceptedLmp]
    rw [SSP.send_chunks_eval tid (SSP.chunks 16 data) rs.tail hmem]
    simp [SSP.Proc.bind]
  · intro h
    obtain ⟨hlen, hmem⟩ := SSP.chunks_spec 4 data (by omega)
    refine ⟨?_, hlen, hmem⟩
    rw [SSP.send_public_key]
    simp only [SSP.PublicKey.as_slice, SSP.PublicKey.get_size,
      SSP.P256_PUBLIC_KEY_SIZE, SSP.sendAcceptedLmp]
    rw [SSP.send_chunks_eval tid (SSP.chunks 16 data) rs.tail hmem]
    simp [SSP.Proc.bind]
  · intro hds hlen3
    obtain ⟨hslen, hsmem⟩ :=
      SSP.chunks_spec 3 (List.replicate 48 (0 : Nat)) (by simp)
    obtain ⟨data', hdata'⟩ := SSP.receive_chunks_complete tid
      (SSP.chunks 16 (List.replicate 48 (0 : Nat))) ds hsmem hds
      (by rw [hlen3, hslen])
    rcases hr : SSP.receive_chunks tid
        (SSP.chunks 16 (List.replicate 48 (0 : Nat))) ds with ⟨t, o⟩
    rw [hr] at hdata'
    have hcount := SSP.receive_chunks_recv_count tid
      (SSP.chunks 16 (List.replicate 48 (0 : Nat))) ds data' (by rw [hr]; exact hdata')
    rw [hr] at hcount
    simp only at hdata'
    subst hdata'
    rw [SSP.receive_public_key]
    have hgen : SSP.PublicKey.generate 48 =
        some (.P192 (List.replicate 48 0)) := rfl
    rw [hgen]
    simp only [SSP.PublicKey.as_slice]
    rw [hr]
    constructor
    · simp [SSP.Proc.bind, SSP.recvLmp, SSP.sendLmp, SSP.Proc.ret,
        SSP.countRecv, List.countP_cons, List.countP_append,
        SSP.isPayloadP]
      simpa [SSP.countRecv, SSP.isPayloadP] using hcount.trans hslen
    · exact ⟨(SSP.PublicKey.P192 (List.replicate 48 0)).withData data',
        by simp [SSP.Proc.bind, SSP.recvLmp, SSP.sendLmp, SSP.Proc.ret], rfl⟩
  · intro hds hlen4
    obtain ⟨hslen, hsmem⟩ :=
      SSP.chunks_spec 4 (List.replicate 64 (0 : Nat)) (by simp)
    obtain ⟨data', hdata'⟩ := SSP.receive_chunks_complete tid
      (SSP.chunks 16 (List.replicate 64 (0 : Nat))) ds hsmem hds
      (by rw [hlen4, hslen])
    rcases hr : SSP.receive_chunks tid
        (SSP.chunks 16 (List.replicate 64 (0 : Nat))) ds with ⟨t, o⟩
    rw [hr] at hdata'
    have hcount := SSP.receive_chunks_recv_count tid
      (SSP.chunks 16 (List.replicate 64 (0 : Nat))) ds data' (by rw [hr]; exact hdata')
    rw [hr] at hcount
    simp only at hdata'
    subst hdata'
    rw [SSP.receive_public_key]
    have hgen : SSP.PublicKey.generate 64 =
        some (.P256 (List.replicate 64 0)) := rfl
    rw [hgen]
    simp only [SSP.PublicKey.as_slice]
    rw [hr]
    constructor
    · simp [SSP.Proc.bind, SSP.recvLmp, SSP.sendLmp, SSP.Proc.ret,
        SSP.countRecv, List.countP_cons, List.countP_append,
        SSP.isPayloadP]
      simpa [SSP.countRecv, SSP.isPayloadP] using hcount.trans hslen
    · exact ⟨(SSP.PublicKey.P256 (List.replicate 64 0)).withData data',
        by simp [SSP.Proc.bind, SSP.recvLmp, SSP.sendLmp, SSP.Proc.ret], rfl⟩

theorem SSP.c7_public_key_transfer_chunks_witness :
    (SSP.send_public_key 0 (.P192 (SSP.zeros 48)) []).2 = some () ∧
    SSP.countRecv SSP.isPayloadP
      (SSP.receive_public_key 0 48 (List.replicate 3 (SSP.zeros 16))).1
      = 3 := by
  obtain ⟨h48, _, r48, _⟩ := SSP.c7_public_key_transfer_chunks 0
    (SSP.zeros 48) [] (List.replicate 3 (SSP.zeros 16))
  have h1 := h48 (by simp [SSP.zeros])
  have h2 := r48
    (by intro d hd; rw [List.eq_of_mem_replicate hd]; simp [SSP.zeros])
    (by simp)
  exact ⟨by rw [h1.1], h2.1⟩

/-- C10: `send_public_key` discards the result of every
`send_accepted_lmp_packet` call: its run does not depend on the peer's
accept/reject decisions, and for any well-formed key it sends the
header followed by all 16-byte chunks and returns normally. -/
theorem SSP.c10_send_public_key_ignores_responses :
    ∀ (tid : Nat) (key : SSP.PublicKey) (rs rs' : List Bool),
      SSP.send_public_key tid key rs = SSP.send_public_key tid key rs' ∧
      (key.as_slice.length = key.get_size →
        SSP.send_public_key tid key rs =
          (.lmpSent (.encapsulatedHeader tid 1 1 key.get_size) ::
            (SSP.chunks 16 key.as_slice).map
              (fun c => SSP.Event.lmpSent (.encapsulatedPayload tid c)),
           some ())) := by
  intro tid key rs rs'
  constructor
  · rw [SSP.send_public_key, SSP.send_public_key,
      SSP.send_chunks_indep tid _ rs.tail rs'.tail]
    simp [SSP.Proc.bind, SSP.sendAcceptedLmp]
  · intro h
    rcases key with data | data
    · have h' : data.length = 48 := by
        simpa [SSP.PublicKey.as_slice, SSP.PublicKey.get_size,
          SSP.P192_PUBLIC_KEY_SIZE] using h
      obtain ⟨hlen, hmem⟩ := SSP.chunks_spec 3 data (by omega)
      rw [SSP.send_public_key]
      simp only [SSP.PublicKey.as_slice, SSP.PublicKey.get_size,
        SSP.P192_PUBLIC_KEY_SIZE, SSP.sendAcceptedLmp]
      rw [SSP.send_chunks_eval tid (SSP.chunks 16 data) rs.tail hmem]
      simp [SSP.Proc.bind]
    · have h' : data.length = 64 := by
        simpa [SSP.PublicKey.as_slice, SSP.PublicKey.get_size,
          SSP.P256_PUBLIC_KEY_SIZE] using h
      obtain ⟨hlen, hmem⟩ := SSP.chunks_spec 4 data (by omega)
      rw [SSP.send_public_key]
      simp only [SSP.PublicKey.as_slice, SSP.PublicKey.get_size,
        SSP.P256_PUBLIC_KEY_SIZE, SSP.sendAcceptedLmp]
      rw [SSP.send_chunks_eval tid (SSP.chunks 16 data) rs.tail hmem]
      simp [SSP.Proc.bind]

theorem SSP.c10_send_public_key_ignores_responses_witness :
    SSP.send_public_key 0 (.P192 (SSP.zeros 48)) [false, false, false, false]
        = SSP.send_public_key 0 (.P192 (SSP.zeros 48))
            [true, true, true, true] ∧
      (SSP.send_public_key 0 (.P192 (SSP.zeros 48))
        [false, false, false, false]).2 = some () := by
  obtain ⟨heq, hev⟩ := SSP.c10_send_public_key_ignores_responses 0
    (.P192 (SSP.zeros 48)) [false, false, false, false]
    [true, true, true, true]
  refine ⟨heq, ?_⟩
  rw [hev (by simp [SSP.zeros, SSP.PublicKey.as_slice,
    SSP.PublicKey.get_size, SSP.P192_PUBLIC_KEY_SIZE])]

/-! ### Stage-1 composition lemmas -/

theorem SSP.initiate_stage1_benign (m : SSP.AuthenticationMethod)
    (i : SSP.AuthenticationParams) (env : SSP.InitiateEnv) :
    SSP.allHci SSP.benignHci (SSP.initiate_stage1 m i env).1 = true := by
  cases m with
  | numericComparaisonJustWork | numericComparaisonUserConfirm =>
    have hsc := @SSP.allHci_of_noHci SSP.benignHci _
      (SSP.send_commitment_noHci true (env.commitEnvs 0))
    have hucr := SSP.user_confirmation_request_benign env.confirmationReply
    rcases h1 : SSP.send_commitment true (env.commitEnvs 0) with ⟨t, o⟩
    rw [h1] at hsc
    rcases h2 : SSP.user_confirmation_request env.confirmationReply
      with ⟨t2, o2⟩
    rw [h2] at hucr
    cases o <;> cases o2 <;>
      simp_all [SSP.initiate_stage1, SSP.bind_fst_none, SSP.bind_fst_some,
        SSP.allHci_append, SSP.Proc.ret, SSP.allHci]
  | passkeyEntry =>
    have hrnds := @SSP.allHci_of_noHci SSP.benignHci _
      (SSP.send_commitment_rounds_noHci env.commitEnvs
        SSP.PASSKEY_ENTRY_REPEAT_NUMBER)
    rcases hr : SSP.send_commitment_rounds env.commitEnvs
      SSP.PASSKEY_ENTRY_REPEAT_NUMBER with ⟨tr, orr⟩
    rw [hr] at hrnds
    by_cases hk : i.io_capability = .keyboardOnly
    · have hup := SSP.user_passkey_request_benign env.passkeyCmds
      rcases h1 : SSP.user_passkey_request env.passkeyCmds with ⟨t, o⟩
      rw [h1] at hup
      rcases o with _ | b
      · simp_all [SSP.initiate_stage1, SSP.bind_fst_none, SSP.allHci]
      · cases b <;> cases orr <;>
          simp_all [SSP.initiate_stage1, SSP.bind_fst_none,
            SSP.bind_fst_some, SSP.allHci_append, SSP.Proc.ret, SSP.allHci]
    · cases orr <;>
        simp_all [SSP.initiate_stage1, SSP.bind_fst_none, SSP.bind_fst_some,
          SSP.allHci_append, SSP.Proc.ret, SSP.sendHci, SSP.allHci,
          SSP.benignHci]
  | outOfBand =>
    have hsc := @SSP.allHci_of_noHci SSP.benignHci _
      (SSP.send_commitment_noHci false (env.commitEnvs 0))
    rcases h1 : SSP.send_commitment false (env.commitEnvs 0) with ⟨t, o⟩
    rw [h1] at hsc
    by_cases ho : i.oob_data_present ≠ SSP.OobDataPresent.notPresent
    · have hoob := SSP.remote_oob_data_request_benign env.oobReply
      rcases h2 : SSP.remote_oob_data_request env.oobReply with ⟨t2, o2⟩
      rw [h2] at hoob
      rcases o2 with _ | b
      · simp_all [SSP.initiate_stage1, SSP.bind_fst_none, SSP.allHci]
      · cases b <;> cases o <;>
          simp_all [SSP.initiate_stage1, SSP.bind_fst_none,
            SSP.bind_fst_some, SSP.allHci_append, SSP.Proc.ret, SSP.allHci]
    · cases o <;>
        simp_all [SSP.initiate_stage1, SSP.bind_fst_none, SSP.bind_fst_some,
          SSP.allHci_append, SSP.Proc.ret, SSP.allHci]

theorem SSP.respond_stage1_benign (m : SSP.AuthenticationMethod)
    (r : SSP.AuthenticationParams) (env : SSP.RespondEnv) :
    SSP.allHci SSP.benignHci (SSP.respond_stage1 m r env).1 = true := by
  cases m with
  | numericComparaisonJustWork | numericComparaisonUserConfirm =>
    have hrc := @SSP.allHci_of_noHci SSP.benignHci _
      (SSP.receive_commitment_noHci true (env.commitEnvs 0))
    have hucr := SSP.user_confirmation_request_benign env.confirmationReply
    rcases h1 : SSP.receive_commitment true (env.commitEnvs 0) with ⟨t, o⟩
    rw [h1] at hrc
    rcases h2 : SSP.user_confirmation_request env.confirmationReply
      with ⟨t2, o2⟩
    rw [h2] at hucr
    cases o <;> cases o2 <;>
      simp_all [SSP.respond_stage1, SSP.bind_fst_none, SSP.bind_fst_some,
        SSP.allHci_append, SSP.Proc.ret, SSP.allHci]
  | passkeyEntry =>
    have hrnds := @SSP.allHci_of_noHci SSP.benignHci _
      (SSP.receive_commitment_rounds_noHci env.commitEnvs
        SSP.PASSKEY_ENTRY_REPEAT_NUMBER)
    rcases hr : SSP.receive_commitment_rounds env.commitEnvs
      SSP.PASSKEY_ENTRY_REPEAT_NUMBER with ⟨tr, orr⟩
    rw [hr] at hrnds
    by_cases hk : r.io_capability = .keyboardOnly
    · have hup := SSP.user_passkey_request_benign env.passkeyCmds
      rcases h1 : SSP.user_passkey_request env.passkeyCmds with ⟨t, o⟩
      rw [h1] at hup
      rcases o with _ | b
      · simp_all [SSP.respond_stage1, SSP.bind_fst_none, SSP.allHci]
      · cases orr <;>
          simp_all [SSP.respond_stage1, SSP.bind_fst_none,
            SSP.bind_fst_some, SSP.allHci_append, SSP.Proc.ret, SSP.allHci]
    · cases orr <;>
        simp_all [SSP.respond_stage1, SSP.bind_fst_none, SSP.bind_fst_some,
          SSP.allHci_append, SSP.Proc.ret, SSP.sendHci, SSP.allHci,
          SSP.benignHci]
  | outOfBand =>
    have hrc := @SSP.allHci_of_noHci SSP.benignHci _
      (SSP.receive_commitment_noHci false (env.commitEnvs 0))
    rcases h1 : SSP.receive_commitment false (env.commitEnvs 0) with ⟨t, o⟩
    rw [h1] at hrc
    by_cases ho : r.oob_data_present ≠ SSP.OobDataPresent.notPresent
    · have hoob := SSP.remote_oob_data_request_benign env.oobReply
      rcases h2 : SSP.remote_oob_data_request env.oobReply with ⟨t2, o2⟩
      rw [h2] at hoob
      rcases o2 with _ | b
      · simp_all [SSP.respond_stage1, SSP.bind_fst_none, SSP.allHci]
      · cases o <;>
          simp_all [SSP.respond_stage1, SSP.bind_fst_none,
            SSP.bind_fst_some, SSP.allHci_append, SSP.Proc.ret, SSP.allHci]
    · cases o <;>
        simp_all [SSP.respond_stage1, SSP.bind_fst_none, SSP.bind_fst_some,
          SSP.allHci_append, SSP.Proc.ret, SSP.allHci]

theorem SSP.initiate_stage1_allSent (m : SSP.AuthenticationMethod)
    (i : SSP.AuthenticationParams) (env : SSP.InitiateEnv) :
    SSP.allSent SSP.commitmentPacket (SSP.initiate_stage1 m i env).1
      = true := by
  cases m with
  | numericComparaisonJustWork | numericComparaisonUserConfirm =>
    have hsc := SSP.send_commitment_allSent true (env.commitEnvs 0)
    have hucr := @SSP.allSent_of_noLmp SSP.commitmentPacket _
      (SSP.user_confirmation_request_noLmp env.confirmationReply)
    rcases h1 : SSP.send_commitment true (env.commitEnvs 0) with ⟨t, o⟩
    rw [h1] at hsc
    rcases h2 : SSP.user_confirmation_request env.confirmationReply
      with ⟨t2, o2⟩
    rw [h2] at hucr
    cases o <;> cases o2 <;>
      simp_all [SSP.initiate_stage1, SSP.bind_fst_none, SSP.bind_fst_some,
        SSP.allSent_append, SSP.Proc.ret, SSP.allSent]
  | passkeyEntry =>
    have hrnds := SSP.send_commitment_rounds_allSent env.commitEnvs
      SSP.PASSKEY_ENTRY_REPEAT_NUMBER
    rcases hr : SSP.send_commitment_rounds env.commitEnvs
      SSP.PASSKEY_ENTRY_REPEAT_NUMBER with ⟨tr, orr⟩
    rw [hr] at hrnds
    by_cases hk : i.io_capability = .keyboardOnly
    · have hup := @SSP.allSent_of_noLmp SSP.commitmentPacket _
        (SSP.user_passkey_request_noLmp env.passkeyCmds)
      rcases h1 : SSP.user_passkey_request env.passkeyCmds with ⟨t, o⟩
      rw [h1] at hup
      rcases o with _ | b
      · simp_all [SSP.initiate_stage1, SSP.bind_fst_none, SSP.allSent]
      · cases b <;> cases orr <;>
          simp_all [SSP.initiate_stage1, SSP.bind_fst_none,
            SSP.bind_fst_some, SSP.allSent_append, SSP.Proc.ret, SSP.allSent]
    · cases orr <;>
        simp_all [SSP.initiate_stage1, SSP.bind_fst_none, SSP.bind_fst_some,
          SSP.allSent_append, SSP.Proc.ret, SSP.sendHci, SSP.allSent]
  | outOfBand =>
    have hsc := SSP.send_commitment_allSent false (env.commitEnvs 0)
    rcases h1 : SSP.send_commitment false (env.commitEnvs 0) with ⟨t, o⟩
    rw [h1] at hsc
    by_cases ho : i.oob_data_present ≠ SSP.OobDataPresent.notPresent
    · have hoob := @SSP.allSent_of_noLmp SSP.commitmentPacket _
        (SSP.remote_oob_data_request_noLmp env.oobReply)
      rcases h2 : SSP.remote_oob_data_request env.oobReply with ⟨t2, o2⟩
      rw [h2] at hoob
      rcases o2 with _ | b
      · simp_all [SSP.initiate_stage1, SSP.bind_fst_none, SSP.allSent]
      · cases b <;> cases o <;>
          simp_all [SSP.initiate_stage1, SSP.bind_fst_none,
            SSP.bind_fst_some, SSP.allSent_append, SSP.Proc.ret, SSP.allSent]
    · cases o <;>
        simp_all [SSP.initiate_stage1, SSP.bind_fst_none, SSP.bind_fst_some,
          SSP.allSent_append, SSP.Proc.ret, SSP.allSent]

theorem SSP.respond_stage1_allSent (m : SSP.AuthenticationMethod)
    (r : SSP.AuthenticationParams) (env : SSP.RespondEnv) :
    SSP.allSent SSP.commitmentPacket (SSP.respond_stage1 m r env).1
      = true := by
  cases m with
  | numericComparaisonJustWork | numericComparaisonUserConfirm =>
    have hrc := SSP.receive_commitment_allSent true (env.commitEnvs 0)
    have hucr := @SSP.allSent_of_noLmp SSP.commitmentPacket _
      (SSP.user_confirmation_request_noLmp env.confirmationReply)
    rcases h1 : SSP.receive_commitment true (env.commitEnvs 0) with ⟨t, o⟩
    rw [h1] at hrc
    rcases h2 : SSP.user_confirmation_request env.confirmationReply
      with ⟨t2, o2⟩
    rw [h2] at hucr
    cases o <;> cases o2 <;>
      simp_all [SSP.respond_stage1, SSP.bind_fst_none, SSP.bind_fst_some,
        SSP.allSent_append, SSP.Proc.ret, SSP.allSent]
  | passkeyEntry =>
    have hrnds := SSP.receive_commitment_rounds_allSent env.commitEnvs
      SSP.PASSKEY_ENTRY_REPEAT_NUMBER
    rcases hr : SSP.receive_commitment_rounds env.commitEnvs
      SSP.PASSKEY_ENTRY_REPEAT_NUMBER with ⟨tr, orr⟩
    rw [hr] at hrnds
    by_cases hk : r.io_capability = .keyboardOnly
    · have hup := @SSP.allSent_of_noLmp SSP.commitmentPacket _
        (SSP.user_passkey_request_noLmp env.passkeyCmds)
      rcases h1 : SSP.user_passkey_request env.passkeyCmds with ⟨t, o⟩
      rw [h1] at hup
      rcases o with _ | b
      · simp_all [SSP.respond_stage1, SSP.bind_fst_none, SSP.allSent]
      · cases orr <;>
          simp_all [SSP.respond_stage1, SSP.bind_fst_none,
            SSP.bind_fst_some, SSP.allSent_append, SSP.Proc.ret, SSP.allSent]
    · cases orr <;>
        simp_all [SSP.respond_stage1, SSP.bind_fst_none, SSP.bind_fst_some,
          SSP.allSent_append, SSP.Proc.ret, SSP.sendHci, SSP.allSent]
  | outOfBand =>
    have hrc := SSP.receive_commitment_allSent false (env.commitEnvs 0)
    rcases h1 : SSP.receive_commitment false (env.commitEnvs 0) with ⟨t, o⟩
    rw [h1] at hrc
    by_cases ho : r.oob_data_present ≠ SSP.OobDataPresent.notPresent
    · have hoob := @SSP.allSent_of_noLmp SSP.commitmentPacket _
        (SSP.remote_oob_data_request_noLmp env.oobReply)
      rcases h2 : SSP.remote_oob_data_request env.oobReply with ⟨t2, o2⟩
      rw [h2] at hoob
      rcases o2 with _ | b
      · simp_all [SSP.respond_stage1, SSP.bind_fst_none, SSP.allSent]
      · cases o <;>
          simp_all [SSP.respond_stage1, SSP.bind_fst_none,
            SSP.bind_fst_some, SSP.allSent_append, SSP.Proc.ret, SSP.allSent]
    · cases o <;>
        simp_all [SSP.respond_stage1, SSP.bind_fst_none, SSP.bind_fst_some,
          SSP.allSent_append, SSP.Proc.ret, SSP.allSent]

/-! ### Receive-side set lemmas for the key transfer -/

theorem SSP.allRecv_append (p : SSP.LmpPacket → Bool)
    (t1 t2 : List SSP.Event) :
    SSP.allRecv p (t1 ++ t2) = (SSP.allRecv p t1 && SSP.allRecv p t2) :=
  List.all_append

theorem SSP.allRecv_of_noLmp {p : SSP.LmpPacket → Bool}
    {t : List SSP.Event} (h : SSP.noLmp t = true) : SSP.allRecv p t = true := by
  rw [SSP.allRecv, List.all_eq_true]
  rw [SSP.noLmp, List.all_eq_true] at h
  intro e he
  have := h e he
  cases e <;> simp_all

theorem SSP.countRecv_eq_zero_of_allRecv {p q : SSP.LmpPacket → Bool}
    {t : List SSP.Event} (h : SSP.allRecv q t = true)
    (himp : ∀ x, q x = true → p x = false) : SSP.countRecv p t = 0 := by
  rw [SSP.countRecv, List.countP_eq_zero]
  rw [SSP.allRecv, List.all_eq_true] at h
  intro e he
  have := h e he
  cases e <;> simp_all [himp]

theorem SSP.send_chunks_allRecv (p : SSP.LmpPacket → Bool) (tid : Nat) :
    ∀ (cs : List (List Nat)) (rs : List Bool),
      SSP.allRecv p (SSP.send_chunks tid cs rs).1 = true := by
  intro cs
  induction cs with
  | nil => intro rs; rfl
  | cons c rest ih =>
    intro rs
    by_cases h : c.length = 16
    · have := ih rs.tail
      rcases hr : SSP.send_chunks tid rest rs.tail with ⟨t, o⟩
      rw [hr] at this
      cases o <;>
        simp_all [SSP.send_chunks, h, SSP.Proc.bind, SSP.sendAcceptedLmp,
          SSP.allRecv]
    · simp [SSP.send_chunks, h, SSP.Proc.stop, SSP.allRecv]

theorem SSP.send_public_key_allRecv (p : SSP.LmpPacket → Bool) (tid : Nat)
    (key : SSP.PublicKey) (rs : List Bool) :
    SSP.allRecv p (SSP.send_public_key tid key rs).1 = true := by
  have := SSP.send_chunks_allRecv p tid (SSP.chunks 16 key.as_slice) rs.tail
  rcases hr : SSP.send_chunks tid (SSP.chunks 16 key.as_slice) rs.tail
    with ⟨t, o⟩
  rw [hr] at this
  cases o <;>
    simp_all [SSP.send_public_key, SSP.Proc.bind, SSP.sendAcceptedLmp,
      SSP.allRecv]

theorem SSP.receive_chunks_allRecv (tid : Nat) :
    ∀ (slots ds : List (List Nat)),
      SSP.allRecv SSP.keyExchangeRecvPacket
        (SSP.receive_chunks tid slots ds).1 = true := by
  intro slots
  induction slots with
  | nil => intro ds; rfl
  | cons slot rest ih =>
    intro ds
    cases ds with
    | nil => rfl
    | cons d ds =>
      by_cases h : d.length = slot.length
      · have := ih ds
        rcases hr : SSP.receive_chunks tid rest ds with ⟨t, o⟩
        rw [hr] at this
        cases o <;>
          simp_all [SSP.receive_chunks, h, SSP.Proc.bind, SSP.recvLmp,
            SSP.sendLmp, SSP.Proc.ret, SSP.allRecv,
            SSP.keyExchangeRecvPacket]
      · simp [SSP.receive_chunks, h, SSP.Proc.bind, SSP.recvLmp,
          SSP.Proc.stop, SSP.allRecv, SSP.keyExchangeRecvPacket]

theorem SSP.receive_public_key_allRecv (tid payload_length : Nat)
    (ds : List (List Nat)) :
    SSP.allRecv SSP.keyExchangeRecvPacket
      (SSP.receive_public_key tid payload_length ds).1 = true := by
  rw [SSP.receive_public_key]
  rcases hg : SSP.PublicKey.generate payload_length with _ | key
  · simp [SSP.Proc.bind, SSP.recvLmp, SSP.Proc.stop, SSP.allRecv,
      SSP.keyExchangeRecvPacket]
  · have := SSP.receive_chunks_allRecv tid (SSP.chunks 16 key.as_slice) ds
    rcases hr : SSP.receive_chunks tid (SSP.chunks 16 key.as_slice) ds
      with ⟨t, o⟩
    rw [hr] at this
    cases o <;>
      simp_all [SSP.Proc.bind, SSP.recvLmp, SSP.sendLmp, SSP.Proc.ret,
        SSP.allRecv, SSP.keyExchangeRecvPacket]

theorem SSP.initiate_key_exchange_allRecv (env : SSP.InitiateEnv) :
    SSP.allRecv SSP.keyExchangeRecvPacket (SSP.initiate_key_exchange env).1
      = true := by
  rw [SSP.initiate_key_exchange]
  rcases hg : SSP.PublicKey.generate
      (if env.secureConnections then SSP.P256_PUBLIC_KEY_SIZE
       else SSP.P192_PUBLIC_KEY_SIZE) with _ | key
  · rfl
  · have h1 := SSP.send_public_key_allRecv SSP.keyExchangeRecvPacket 0 key
      env.sendKeyResponses
    have h2 := SSP.receive_public_key_allRecv 0 env.peerKeyHeaderLen
      env.peerKeyChunks
    rcases hs : SSP.send_public_key 0 key env.sendKeyResponses with ⟨t, o⟩
    rw [hs] at h1
    cases o <;>
      simp_all [SSP.bind_fst_none, SSP.bind_fst_some, SSP.allRecv_append]

theorem SSP.respond_key_exchange_allRecv (env : SSP.RespondEnv) :
    SSP.allRecv SSP.keyExchangeRecvPacket (SSP.respond_key_exchange env).1
      = true := by
  rw [SSP.respond_key_exchange]
  have h1 := SSP.receive_public_key_allRecv 0 env.peerKeyHeaderLen
    env.peerKeyChunks
  rcases hr : SSP.receive_public_key 0 env.peerKeyHeaderLen env.peerKeyChunks
    with ⟨t, o⟩
  rw [hr] at h1
  cases o with
  | none => simp_all [SSP.bind_fst_none]
  | some pk =>
    rcases hg : SSP.PublicKey.generate pk.get_size with _ | key
    · simp_all [SSP.bind_fst_some, SSP.Proc.stop, SSP.allRecv_append,
        SSP.allRecv]
    · have h2 := SSP.send_public_key_allRecv SSP.keyExchangeRecvPacket 0 key
        env.sendKeyResponses
      rcases hs : SSP.send_public_key 0 key env.sendKeyResponses with ⟨t2, o2⟩
      rw [hs] at h2
      cases o2 <;>
        simp_all [SSP.bind_fst_none, SSP.bind_fst_some, SSP.allRecv_append,
          SSP.allRecv, SSP.Proc.ret]

/-! ### Coordinator decomposition -/

theorem SSP.initiate_capability_eval (a b : SSP.AuthenticationParams) :
    SSP.initiate_capability a b =
      ([.hciSent .ioCapabilityRequest,
        .hciSent (.ioCapabilityRequestReplyComplete .success),
        .lmpSent (.ioCapabilityReq 0 a.io_capability a.oob_data_present
          a.authentication_requirements),
        .lmpRecv (.ioCapabilityRes 0 b.io_capability b.oob_data_present
          b.authentication_requirements),
        .hciSent (.ioCapabilityResponse b.io_capability b.oob_data_present
          b.authentication_requirements)],
       some (a, b)) := rfl

theorem SSP.respond_capability_eval (a b : SSP.AuthenticationParams) :
    SSP.respond_capability a b =
      ([.hciSent (.ioCapabilityResponse a.io_capability a.oob_data_present
          a.authentication_requirements),
        .hciSent .ioCapabilityRequest,
        .hciSent (.ioCapabilityRequestReplyComplete .success),
        .lmpSent (.ioCapabilityRes 0 b.io_capability b.oob_data_present
          b.authentication_requirements)],
       some (a, b)) := rfl

theorem SSP.initiate_cases (env : SSP.InitiateEnv) :
    (∃ tk, SSP.initiate_key_exchange env = (tk, none) ∧
      SSP.initiate env =
        ((SSP.initiate_capability env.hostReply env.peerRes).1 ++ tk,
         none)) ∨
    (∃ tk pk ts, SSP.initiate_key_exchange env = (tk, some pk) ∧
      SSP.initiate_stage1
          (SSP.authentication_method env.hostReply env.peerRes)
          env.hostReply env = (ts, none) ∧
      SSP.initiate env =
        ((SSP.initiate_capability env.hostReply env.peerRes).1 ++ tk ++ ts,
         none)) ∨
    (∃ tk pk ts, SSP.initiate_key_exchange env = (tk, some pk) ∧
      SSP.initiate_stage1
          (SSP.authentication_method env.hostReply env.peerRes)
          env.hostReply env = (ts, some false) ∧
      SSP.initiate env =
        ((SSP.initiate_capability env.hostReply env.peerRes).1 ++ tk ++ ts ++
          [.lmpSent (.numericComparaisonFailed 0),
           .hciSent (.simplePairingComplete .authenticationFailure)],
         some false)) ∨
    (∃ tk pk ts, SSP.initiate_key_exchange env = (tk, some pk) ∧
      SSP.initiate_stage1
          (SSP.authentication_method env.hostReply env.peerRes)
          env.hostReply env = (ts, some true) ∧
      env.dhkeyAccepted = false ∧
      SSP.initiate env =
        ((SSP.initiate_capability env.hostReply env.peerRes).1 ++ tk ++ ts ++
          [.lmpSent (.dhkeyCheck 0 (SSP.zeros 16)),
           .hciSent (.simplePairingComplete .authenticationFailure)],
         some false)) ∨
    (∃ tk pk ts, SSP.initiate_key_exchange env = (tk, some pk) ∧
      SSP.initiate_stage1
          (SSP.authentication_method env.hostReply env.peerRes)
          env.hostReply env = (ts, some true) ∧
      env.dhkeyAccepted = true ∧ env.sendChallengeOk = false ∧
      SSP.initiate env =
        ((SSP.initiate_capability env.hostReply env.peerRes).1 ++ tk ++ ts ++
          [.lmpSent (.dhkeyCheck 0 (SSP.zeros 16)),
           .lmpRecv (.dhkeyCheck 0 env.peerDhkey),
           .lmpSent (.accepted 0 .dhkeyCheck),
           .hciSent (.simplePairingComplete .success)],
         some false)) ∨
    (∃ tk pk ts, SSP.initiate_key_exchange env = (tk, some pk) ∧
      SSP.initiate_stage1
          (SSP.authentication_method env.hostReply env.peerRes)
          env.hostReply env = (ts, some true) ∧
      env.dhkeyAccepted = true ∧ env.sendChallengeOk = true ∧
      SSP.initiate env =
        ((SSP.initiate_capability env.hostReply env.peerRes).1 ++ tk ++ ts ++
          [.lmpSent (.dhkeyCheck 0 (SSP.zeros 16)),
           .lmpRecv (.dhkeyCheck 0 env.peerDhkey),
           .lmpSent (.accepted 0 .dhkeyCheck),
           .hciSent (.simplePairingComplete .success),
           .hciSent (.linkKeyNotif
             (SSP.link_key_type
               (SSP.authentication_method env.hostReply env.peerRes) pk)
             (SSP.zeros 16))],
         some true)) := by
  rcases hkey : SSP.initiate_key_exchange env with ⟨tk, ok⟩
  cases ok with
  | none =>
    refine Or.inl ⟨tk, rfl, ?_⟩
    rw [SSP.initiate, SSP.initiate_capability_eval, SSP.bind_fst_some, hkey,
      SSP.bind_fst_none]
  | some pk =>
    rcases hs1 : SSP.initiate_stage1
        (SSP.authentication_method env.hostReply env.peerRes)
        env.hostReply env with ⟨ts, os⟩
    cases os with
    | none =>
      refine Or.inr (Or.inl ⟨tk, pk, ts, rfl, rfl, ?_⟩)
      simp only [SSP.initiate, SSP.initiate_capability_eval,
        SSP.bind_fst_some, hkey, hs1, SSP.bind_fst_none]
      simp
    | some b =>
      cases b with
      | false =>
        refine Or.inr (Or.inr (Or.inl ⟨tk, pk, ts, rfl, rfl, ?_⟩))
        simp only [SSP.initiate, SSP.initiate_capability_eval,
          SSP.bind_fst_some, hkey, hs1]
        simp [SSP.Proc.bind, SSP.sendLmp, SSP.sendHci, SSP.Proc.ret]
      | true =>
        cases hda : env.dhkeyAccepted with
        | false =>
          refine Or.inr (Or.inr (Or.inr (Or.inl
            ⟨tk, pk, ts, rfl, rfl, rfl, ?_⟩)))
          simp only [SSP.initiate, SSP.initiate_capability_eval,
            SSP.bind_fst_some, hkey, hs1]
          simp [SSP.Proc.bind, SSP.sendAcceptedLmp, SSP.sendHci,
            SSP.Proc.ret, hda, SSP.zeros, SSP.CONFIRMATION_VALUE_SIZE]
        | true =>
          cases hch : env.sendChallengeOk with
          | false =>
            refine Or.inr (Or.inr (Or.inr (Or.inr (Or.inl
              ⟨tk, pk, ts, rfl, rfl, rfl, rfl, ?_⟩))))
            simp only [SSP.initiate, SSP.initiate_capability_eval,
              SSP.bind_fst_some, hkey, hs1]
            simp [SSP.Proc.bind, SSP.sendAcceptedLmp, SSP.sendHci,
              SSP.sendLmp, SSP.recvLmp, SSP.Proc.ret, SSP.send_challenge,
              SSP.receive_challenge, hda, hch, SSP.zeros,
              SSP.CONFIRMATION_VALUE_SIZE]
          | true =>
            refine Or.inr (Or.inr (Or.inr (Or.inr (Or.inr
              ⟨tk, pk, ts, rfl, rfl, rfl, rfl, ?_⟩))))
            simp only [SSP.initiate, SSP.initiate_capability_eval,
              SSP.bind_fst_some, hkey, hs1]
            simp [SSP.Proc.bind, SSP.sendAcceptedLmp, SSP.sendHci,
              SSP.sendLmp, SSP.recvLmp, SSP.Proc.ret, SSP.send_challenge,
              SSP.receive_challenge, hda, hch, SSP.zeros,
              SSP.CONFIRMATION_VALUE_SIZE]

theorem SSP.respond_cases (env : SSP.RespondEnv) :
    (∃ tk, SSP.respond_key_exchange env = (tk, none) ∧
      SSP.respond env =
        ((SSP.respond_capability env.request env.hostReply).1 ++ tk,
         none)) ∨
    (∃ tk pk ts, SSP.respond_key_exchange env = (tk, some pk) ∧
      SSP.respond_stage1
          (SSP.authentication_method env.request env.hostReply)
          env.hostReply env = (ts, none) ∧
      SSP.respond env =
        ((SSP.respond_capability env.request env.hostReply).1 ++ tk ++ ts,
         none)) ∨
    (∃ tk pk ts neg, SSP.respond_key_exchange env = (tk, some pk) ∧
      SSP.respond_stage1
          (SSP.authentication_method env.request env.hostReply)
          env.hostReply env = (ts, some neg) ∧
      env.gate = false ∧
      SSP.respond env =
        ((SSP.respond_capability env.request env.hostReply).1 ++ tk ++ ts ++
          [.lmpRecv (.numericComparaisonFailed 0),
           .hciSent (.simplePairingComplete .authenticationFailure)],
         some false)) ∨
    (∃ tk pk ts, SSP.respond_key_exchange env = (tk, some pk) ∧
      SSP.respond_stage1
          (SSP.authentication_method env.request env.hostReply)
          env.hostReply env = (ts, some true) ∧
      env.gate = true ∧
      SSP.respond env =
        ((SSP.respond_capability env.request env.hostReply).1 ++ tk ++ ts ++
          [.lmpRecv (.dhkeyCheck 0 env.peerDhkey),
           .lmpSent (.notAccepted 0 .dhkeyCheck .authenticationFailure),
           .hciSent (.simplePairingComplete .authenticationFailure)],
         some false)) ∨
    (∃ tk pk ts, SSP.respond_key_exchange env = (tk, some pk) ∧
      SSP.respond_stage1
          (SSP.authentication_method env.request env.hostReply)
          env.hostReply env = (ts, some false) ∧
      env.gate = true ∧ env.sendChallengeOk = false ∧
      SSP.respond env =
        ((SSP.respond_capability env.request env.hostReply).1 ++ tk ++ ts ++
          [.lmpRecv (.dhkeyCheck 0 env.peerDhkey),
           .lmpSent (.accepted 0 .dhkeyCheck),
           .lmpSent (.dhkeyCheck 0 (SSP.zeros 16)),
           .hciSent (.simplePairingComplete .success)],
         some false)) ∨
    (∃ tk pk ts, SSP.respond_key_exchange env = (tk, some pk) ∧
      SSP.respond_stage1
          (SSP.authentication_method env.request env.hostReply)
          env.hostReply env = (ts, some false) ∧
      env.gate = true ∧ env.sendChallengeOk = true ∧
      SSP.respond env =
        ((SSP.respond_capability env.request env.hostReply).1 ++ tk ++ ts ++
          [.lmpRecv (.dhkeyCheck 0 env.peerDhkey),
           .lmpSent (.accepted 0 .dhkeyCheck),
           .lmpSent (.dhkeyCheck 0 (SSP.zeros 16)),
           .hciSent (.simplePairingComplete .success),
           .hciSent (.linkKeyNotif
             (SSP.link_key_type
               (SSP.authentication_method env.request env.hostReply) pk)
             (SSP.zeros 16))],
         some true)) := by
  rcases hkey : SSP.respond_key_exchange env with ⟨tk, ok⟩
  cases ok with
  | none =>
    refine Or.inl ⟨tk, rfl, ?_⟩
    rw [SSP.respond, SSP.respond_capability_eval, SSP.bind_fst_some, hkey,
      SSP.bind_fst_none]
  | some pk =>
    rcases hs1 : SSP.respond_stage1
        (SSP.authentication_method env.request env.hostReply)
        env.hostReply env with ⟨ts, os⟩
    cases os with
    | none =>
      refine Or.inr (Or.inl ⟨tk, pk, ts, rfl, rfl, ?_⟩)
      simp only [SSP.respond, SSP.respond_capability_eval,
        SSP.bind_fst_some, hkey, hs1, SSP.bind_fst_none]
      simp
    | some neg =>
      cases hg : env.gate with
      | false =>
        refine Or.inr (Or.inr (Or.inl ⟨tk, pk, ts, neg, rfl, rfl, rfl, ?_⟩))
        simp only [SSP.respond, SSP.respond_capability_eval,
          SSP.bind_fst_some, hkey, hs1]
        simp [SSP.Proc.bind, SSP.recvLmp, SSP.sendHci, SSP.Proc.ret, hg]
      | true =>
        cases neg with
        | true =>
          refine Or.inr (Or.inr (Or.inr (Or.inl
            ⟨tk, pk, ts, rfl, rfl, rfl, ?_⟩)))
          simp only [SSP.respond, SSP.respond_capability_eval,
            SSP.bind_fst_some, hkey, hs1]
          simp [SSP.Proc.bind, SSP.recvLmp, SSP.sendLmp, SSP.sendHci,
            SSP.Proc.ret, hg]
        | false =>
          cases hch : env.sendChallengeOk with
          | false =>
            refine Or.inr (Or.inr (Or.inr (Or.inr (Or.inl
              ⟨tk, pk, ts, rfl, rfl, rfl, rfl, ?_⟩))))
            simp only [SSP.respond, SSP.respond_capability_eval,
              SSP.bind_fst_some, hkey, hs1]
            simp [SSP.Proc.bind, SSP.recvLmp, SSP.sendLmp, SSP.sendHci,
              SSP.sendAcceptedLmp, SSP.Proc.ret, SSP.send_challenge,
              SSP.receive_challenge, hg, hch, SSP.zeros,
              SSP.CONFIRMATION_VALUE_SIZE]
          | true =>
            refine Or.inr (Or.inr (Or.inr (Or.inr (Or.inr
              ⟨tk, pk, ts, rfl, rfl, rfl, rfl, ?_⟩))))
            simp only [SSP.respond, SSP.respond_capability_eval,
              SSP.bind_fst_some, hkey, hs1]
            simp [SSP.Proc.bind, SSP.recvLmp, SSP.sendLmp, SSP.sendHci,
              SSP.sendAcceptedLmp, SSP.Proc.ret, SSP.send_challenge,
              SSP.receive_challenge, hg, hch, SSP.zeros,
              SSP.CONFIRMATION_VALUE_SIZE]

/-! ### Packet-set bridge lemmas -/

theorem SSP.commitmentPacket_tid {p : SSP.LmpPacket}
    (h : SSP.commitmentPacket p = true) : (p.transaction_id == 0) = true := by
  unfold SSP.commitmentPacket at h
  split at h <;> simp_all [SSP.LmpPacket.transaction_id]

theorem SSP.keyExchangePacket_tid {p : SSP.LmpPacket}
    (h : SSP.keyExchangePacket p = true) : (p.transaction_id == 0) = true := by
  unfold SSP.keyExchangePacket at h
  split at h <;> simp_all [SSP.LmpPacket.transaction_id]

theorem SSP.commitmentPacket_not_confirm_free {p : SSP.LmpPacket}
    (h : SSP.commitmentPacket p = true) :
    SSP.isAcceptedDhkeyP p = false ∧ SSP.isDhkeyCheckP p = false := by
  unfold SSP.commitmentPacket at h
  split at h <;> simp_all [SSP.isAcceptedDhkeyP, SSP.isDhkeyCheckP]

theorem SSP.keyExchangePacket_not_dhkey {p : SSP.LmpPacket}
    (h : SSP.keyExchangePacket p = true) :
    SSP.isAcceptedDhkeyP p = false ∧ SSP.isDhkeyCheckP p = false := by
  unfold SSP.keyExchangePacket at h
  split at h <;> simp_all [SSP.isAcceptedDhkeyP, SSP.isDhkeyCheckP]

theorem SSP.keyExchangePacket_not_confirm {p : SSP.LmpPacket}
    (h : SSP.keyExchangePacket p = true) : SSP.isConfirmP p = false := by
  unfold SSP.keyExchangePacket at h
  split at h <;> simp_all [SSP.isConfirmP]

theorem SSP.keyExchangeRecvPacket_not_confirm {p : SSP.LmpPacket}
    (h : SSP.keyExchangeRecvPacket p = true) : SSP.isConfirmP p = false := by
  unfold SSP.keyExchangeRecvPacket at h
  split at h <;> simp_all [SSP.isConfirmP]

/-! ### Stage-1 confirm counts -/

theorem SSP.initiate_stage1_nc_counts (m : SSP.AuthenticationMethod)
    (i : SSP.AuthenticationParams) (env : SSP.InitiateEnv)
    (hm : m = .numericComparaisonJustWork ∨
      m = .numericComparaisonUserConfirm) :
    SSP.countSent SSP.isConfirmP (SSP.initiate_stage1 m i env).1 = 0 ∧
      SSP.countRecv SSP.isConfirmP (SSP.initiate_stage1 m i env).1 = 1 := by
  have hsent := SSP.send_commitment_sent_confirm true (env.commitEnvs 0)
  have hrecv := SSP.send_commitment_recv_confirm true (env.commitEnvs 0)
  have hucr1 := @SSP.countSent_eq_zero_of_noLmp SSP.isConfirmP _
    (SSP.user_confirmation_request_noLmp env.confirmationReply)
  have hucr2 := @SSP.countRecv_eq_zero_of_noLmp SSP.isConfirmP _
    (SSP.user_confirmation_request_noLmp env.confirmationReply)
  rcases h1 : SSP.send_commitment true (env.commitEnvs 0) with ⟨t, o⟩
  rw [h1] at hsent hrecv
  rcases h2 : SSP.user_confirmation_request env.confirmationReply
    with ⟨t2, o2⟩
  rw [h2] at hucr1 hucr2
  rcases hm with hm | hm <;> subst hm <;> cases o <;> cases o2 <;>
    simp_all [SSP.initiate_stage1, SSP.bind_fst_none, SSP.bind_fst_some,
      SSP.countSent_append, SSP.countRecv_append, SSP.Proc.ret]

theorem SSP.initiate_stage1_passkey_counts (i : SSP.AuthenticationParams)
    (env : SSP.InitiateEnv)
    (h : (SSP.initiate_stage1 .passkeyEntry i env).2 = some true) :
    SSP.countSent SSP.isConfirmP
        (SSP.initiate_stage1 .passkeyEntry i env).1 = 20 ∧
      SSP.countRecv SSP.isConfirmP
        (SSP.initiate_stage1 .passkeyEntry i env).1 = 20 := by
  rcases hr : SSP.send_commitment_rounds env.commitEnvs
    SSP.PASSKEY_ENTRY_REPEAT_NUMBER with ⟨tr, orr⟩
  by_cases hk : i.io_capability = .keyboardOnly
  · have hup1 := @SSP.countSent_eq_zero_of_noLmp SSP.isConfirmP _
      (SSP.user_passkey_request_noLmp env.passkeyCmds)
    have hup2 := @SSP.countRecv_eq_zero_of_noLmp SSP.isConfirmP _
      (SSP.user_passkey_request_noLmp env.passkeyCmds)
    rcases h1 : SSP.user_passkey_request env.passkeyCmds with ⟨t, o⟩
    rw [h1] at hup1 hup2
    rcases o with _ | b
    · rw [SSP.initiate_stage1, hk] at h
      simp_all [SSP.bind_fst_none]
    · cases b with
      | false =>
        rw [SSP.initiate_stage1, hk] at h
        simp_all [SSP.bind_fst_some, SSP.Proc.ret]
      | true =>
        cases orr with
        | none =>
          rw [SSP.initiate_stage1, hk] at h
          simp_all [SSP.bind_fst_some, SSP.bind_fst_none, SSP.Proc.ret]
        | some u =>
          obtain ⟨hcs, hcr⟩ := SSP.send_commitment_rounds_counts
            env.commitEnvs SSP.PASSKEY_ENTRY_REPEAT_NUMBER (by rw [hr])
          rw [hr] at hcs hcr
          rw [SSP.initiate_stage1, hk]
          simp_all [SSP.bind_fst_some, SSP.Proc.ret, SSP.countSent_append,
            SSP.countRecv_append, SSP.PASSKEY_ENTRY_REPEAT_NUMBER]
  · cases orr with
    | none =>
      rw [SSP.initiate_stage1] at h
      simp_all [SSP.bind_fst_some, SSP.bind_fst_none, SSP.Proc.ret,
        SSP.sendHci, SSP.Proc.bind, hk]
    | some u =>
      obtain ⟨hcs, hcr⟩ := SSP.send_commitment_rounds_counts
        env.commitEnvs SSP.PASSKEY_ENTRY_REPEAT_NUMBER (by rw [hr])
      rw [hr] at hcs hcr
      rw [SSP.initiate_stage1]
      simp_all [SSP.bind_fst_some, SSP.Proc.ret, SSP.Proc.bind, SSP.sendHci,
        SSP.countSent_append, SSP.countRecv_append, SSP.countSent,
        SSP.countRecv, List.countP_cons, SSP.PASSKEY_ENTRY_REPEAT_NUMBER, hk]

theorem SSP.initiate_stage1_oob_counts (i : SSP.AuthenticationParams)
    (env : SSP.InitiateEnv)
    (h : (SSP.initiate_stage1 .outOfBand i env).2 = some true) :
    SSP.countSent SSP.isConfirmP
        (SSP.initiate_stage1 .outOfBand i env).1 = 1 ∧
      SSP.countRecv SSP.isConfirmP
        (SSP.initiate_stage1 .outOfBand i env).1 = 1 := by
  have hsent := SSP.send_commitment_sent_confirm false (env.commitEnvs 0)
  have hrecv := SSP.send_commitment_recv_confirm false (env.commitEnvs 0)
  rcases h1 : SSP.send_commitment false (env.commitEnvs 0) with ⟨t, o⟩
  rw [h1] at hsent hrecv
  by_cases ho : i.oob_data_present ≠ SSP.OobDataPresent.notPresent
  · have hoob1 := @SSP.countSent_eq_zero_of_noLmp SSP.isConfirmP _
      (SSP.remote_oob_data_request_noLmp env.oobReply)
    have hoob2 := @SSP.countRecv_eq_zero_of_noLmp SSP.isConfirmP _
      (SSP.remote_oob_data_request_noLmp env.oobReply)
    rcases h2 : SSP.remote_oob_data_request env.oobReply with ⟨t2, o2⟩
    rw [h2] at hoob1 hoob2
    rw [SSP.initiate_stage1] at h ⊢
    rcases o2 with _ | b
    · simp_all [SSP.bind_fst_none, if_pos ho]
    · cases b <;> cases o <;>
        simp_all [SSP.bind_fst_some, SSP.bind_fst_none, SSP.Proc.ret,
          SSP.countSent_append, SSP.countRecv_append, if_pos ho]
  · rw [SSP.initiate_stage1] at h ⊢
    cases o <;>
      simp_all [SSP.bind_fst_some, SSP.bind_fst_none, SSP.Proc.ret,
        SSP.countSent_append, SSP.countRecv_append, if_neg ho]

theorem SSP.respond_stage1_nc_counts (m : SSP.AuthenticationMethod)
    (r : SSP.AuthenticationParams) (env : SSP.RespondEnv)
    (hm : m = .numericComparaisonJustWork ∨
      m = .numericComparaisonUserConfirm) :
    SSP.countSent SSP.isConfirmP (SSP.respond_stage1 m r env).1 = 1 ∧
      SSP.countRecv SSP.isConfirmP (SSP.respond_stage1 m r env).1 = 0 := by
  have hdone : (SSP.receive_commitment true (env.commitEnvs 0)).2
      = some () := by
    rw [SSP.receive_commitment_result]; simp
  have hsent := SSP.receive_commitment_sent_confirm true (env.commitEnvs 0)
    hdone
  have hrecv := SSP.receive_commitment_recv_confirm true (env.commitEnvs 0)
  have hucr1 := @SSP.countSent_eq_zero_of_noLmp SSP.isConfirmP _
    (SSP.user_confirmation_request_noLmp env.confirmationReply)
  have hucr2 := @SSP.countRecv_eq_zero_of_noLmp SSP.isConfirmP _
    (SSP.user_confirmation_request_noLmp env.confirmationReply)
  rcases h1 : SSP.receive_commitment true (env.commitEnvs 0) with ⟨t, o⟩
  rw [h1] at hsent hrecv hdone
  rcases h2 : SSP.user_confirmation_request env.confirmationReply
    with ⟨t2, o2⟩
  rw [h2] at hucr1 hucr2
  subst hdone
  rcases hm with hm | hm <;> subst hm <;> cases o2 <;>
    simp_all [SSP.respond_stage1, SSP.bind_fst_none, SSP.bind_fst_some,
      SSP.countSent_append, SSP.countRecv_append, SSP.Proc.ret]

theorem SSP.respond_stage1_passkey_counts (r : SSP.AuthenticationParams)
    (env : SSP.RespondEnv) (b : Bool)
    (h : (SSP.respond_stage1 .passkeyEntry r env).2 = some b) :
    SSP.countSent SSP.isConfirmP
        (SSP.respond_stage1 .passkeyEntry r env).1 = 20 ∧
      SSP.countRecv SSP.isConfirmP
        (SSP.respond_stage1 .passkeyEntry r env).1 = 20 := by
  rcases hr : SSP.receive_commitment_rounds env.commitEnvs
    SSP.PASSKEY_ENTRY_REPEAT_NUMBER with ⟨tr, orr⟩
  by_cases hk : r.io_capability = .keyboardOnly
  · have hup1 := @SSP.countSent_eq_zero_of_noLmp SSP.isConfirmP _
      (SSP.user_passkey_request_noLmp env.passkeyCmds)
    have hup2 := @SSP.countRecv_eq_zero_of_noLmp SSP.isConfirmP _
      (SSP.user_passkey_request_noLmp env.passkeyCmds)
    rcases h1 : SSP.user_passkey_request env.passkeyCmds with ⟨t, o⟩
    rw [h1] at hup1 hup2
    rcases o with _ | c
    · rw [SSP.respond_stage1, hk] at h
      simp_all [SSP.bind_fst_none, SSP.bind_fst_some]
    · cases orr with
      | none =>
        rw [SSP.respond_stage1, hk] at h
        simp_all [SSP.bind_fst_some, SSP.bind_fst_none, SSP.Proc.ret]
      | some u =>
        obtain ⟨hcs, hcr⟩ := SSP.receive_commitment_rounds_counts
          env.commitEnvs SSP.PASSKEY_ENTRY_REPEAT_NUMBER (by rw [hr])
        rw [hr] at hcs hcr
        rw [SSP.respond_stage1, hk]
        simp_all [SSP.bind_fst_some, SSP.Proc.ret, SSP.countSent_append,
          SSP.countRecv_append, SSP.PASSKEY_ENTRY_REPEAT_NUMBER]
  · cases orr with
    | none =>
      rw [SSP.respond_stage1] at h
      simp_all [SSP.bind_fst_some, SSP.bind_fst_none, SSP.Proc.ret,
        SSP.sendHci, SSP.Proc.bind, hk]
    | some u =>
      obtain ⟨hcs, hcr⟩ := SSP.receive_commitment_rounds_counts
        env.commitEnvs SSP.PASSKEY_ENTRY_REPEAT_NUMBER (by rw [hr])
      rw [hr] at hcs hcr
      rw [SSP.respond_stage1]
      simp_all [SSP.bind_fst_some, SSP.Proc.ret, SSP.Proc.bind, SSP.sendHci,
        SSP.countSent_append, SSP.countRecv_append, SSP.countSent,
        SSP.countRecv, List.countP_cons, SSP.PASSKEY_ENTRY_REPEAT_NUMBER, hk]

theorem SSP.respond_stage1_oob_counts (r : SSP.AuthenticationParams)
    (env : SSP.RespondEnv) (b : Bool)
    (h : (SSP.respond_stage1 .outOfBand r env).2 = some b) :
    SSP.countSent SSP.isConfirmP
        (SSP.respond_stage1 .outOfBand r env).1 = 1 ∧
      SSP.countRecv SSP.isConfirmP
        (SSP.respond_stage1 .outOfBand r env).1 = 1 := by
  have hrecv := SSP.receive_commitment_recv_confirm false (env.commitEnvs 0)
  rcases h1 : SSP.receive_commitment false (env.commitEnvs 0) with ⟨t, o⟩
  rw [h1] at hrecv
  by_cases ho : r.oob_data_present ≠ SSP.OobDataPresent.notPresent
  · have hoob1 := @SSP.countSent_eq_zero_of_noLmp SSP.isConfirmP _
      (SSP.remote_oob_data_request_noLmp env.oobReply)
    have hoob2 := @SSP.countRecv_eq_zero_of_noLmp SSP.isConfirmP _
      (SSP.remote_oob_data_request_noLmp env.oobReply)
    rcases h2 : SSP.remote_oob_data_request env.oobReply with ⟨t2, o2⟩
    rw [h2] at hoob1 hoob2
    rw [SSP.respond_stage1] at h ⊢
    rcases o2 with _ | c
    · simp_all [SSP.bind_fst_none, SSP.bind_fst_some, if_pos ho]
    · cases o with
      | none =>
        simp_all [SSP.bind_fst_some, SSP.bind_fst_none, SSP.Proc.ret,
          SSP.Proc.bind, if_pos ho]
      | some u =>
        have hsent := SSP.receive_commitment_sent_confirm false
          (env.commitEnvs 0) (by rw [h1])
        rw [h1] at hsent
        simp_all [SSP.bind_fst_some, SSP.Proc.ret, SSP.Proc.bind,
          SSP.countSent_append, SSP.countRecv_append, if_pos ho]
  · rw [SSP.respond_stage1] at h ⊢
    cases o with
    | none =>
      simp_all [SSP.bind_fst_some, SSP.bind_fst_none, SSP.Proc.ret,
        if_neg ho]
    | some u =>
      have hsent := SSP.receive_commitment_sent_confirm false
        (env.commitEnvs 0) (by rw [h1])
      rw [h1] at hsent
      simp_all [SSP.bind_fst_some, SSP.Proc.ret,
        SSP.countSent_append, SSP.countRecv_append, if_neg ho]

/-- C9: every LMP packet emitted by `initiate` or `respond` (including
those of the key transfer, the commitment rounds, the
`Accepted`/`NotAccepted` acknowledgements, the `DhkeyCheck` and the
`NumericComparaisonFailed` frames) carries `transaction_id = 0`, for
every environment, whether or not the run completes. -/
theorem SSP.c9_transaction_id_zero :
    ∀ (envI : SSP.InitiateEnv) (envR : SSP.RespondEnv),
      SSP.allSent (fun p => p.transaction_id == 0) (SSP.initiate envI).1
        = true ∧
      SSP.allSent (fun p => p.transaction_id == 0) (SSP.respond envR).1
        = true := by
  intro envI envR
  constructor
  · have hcap : SSP.allSent (fun p => p.transaction_id == 0)
        (SSP.initiate_capability envI.hostReply envI.peerRes).1 = true := by
      rw [SSP.initiate_capability_eval]
      simp [SSP.allSent, SSP.LmpPacket.transaction_id]
    have htk0 := SSP.allSent_mono (SSP.initiate_key_exchange_allSent envI)
      (fun x hx => SSP.keyExchangePacket_tid hx)
    have hts0 := SSP.allSent_mono
      (SSP.initiate_stage1_allSent
        (SSP.authentication_method envI.hostReply envI.peerRes)
        envI.hostReply envI)
      (fun x hx => SSP.commitmentPacket_tid hx)
    rcases SSP.initiate_cases envI with
      ⟨tk, hkey, heq⟩ | ⟨tk, pk, ts, hkey, hs1, heq⟩ |
      ⟨tk, pk, ts, hkey, hs1, heq⟩ | ⟨tk, pk, ts, hkey, hs1, _, heq⟩ |
      ⟨tk, pk, ts, hkey, hs1, _, _, heq⟩ |
      ⟨tk, pk, ts, hkey, hs1, _, _, heq⟩ <;>
      rw [hkey] at htk0 <;>
      [skip; rw [hs1] at hts0; rw [hs1] at hts0; rw [hs1] at hts0;
        rw [hs1] at hts0; rw [hs1] at hts0] <;>
      rw [heq] <;>
      simp_all [SSP.allSent_append, SSP.allSent,
        SSP.LmpPacket.transaction_id]
  · have hcap : SSP.allSent (fun p => p.transaction_id == 0)
        (SSP.respond_capability envR.request envR.hostReply).1 = true := by
      rw [SSP.respond_capability_eval]
      simp [SSP.allSent, SSP.LmpPacket.transaction_id]
    have htk0 := SSP.allSent_mono (SSP.respond_key_exchange_allSent envR)
      (fun x hx => SSP.keyExchangePacket_tid hx)
    have hts0 := SSP.allSent_mono
      (SSP.respond_stage1_allSent
        (SSP.authentication_method envR.request envR.hostReply)
        envR.hostReply envR)
      (fun x hx => SSP.commitmentPacket_tid hx)
    rcases SSP.respond_cases envR with
      ⟨tk, hkey, heq⟩ | ⟨tk, pk, ts, hkey, hs1, heq⟩ |
      ⟨tk, pk, ts, neg, hkey, hs1, _, heq⟩ |
      ⟨tk, pk, ts, hkey, hs1, _, heq⟩ |
      ⟨tk, pk, ts, hkey, hs1, _, _, heq⟩ |
      ⟨tk, pk, ts, hkey, hs1, _, _, heq⟩ <;>
      rw [hkey] at htk0 <;>
      [skip; rw [hs1] at hts0; rw [hs1] at hts0; rw [hs1] at hts0;
        rw [hs1] at hts0; rw [hs1] at hts0] <;>
      rw [heq] <;>
      simp_all [SSP.allSent_append, SSP.allSent,
        SSP.LmpPacket.transaction_id]

theorem SSP.countSent_nil (p : SSP.LmpPacket → Bool) :
    SSP.countSent p [] = 0 := rfl

theorem SSP.countRecv_nil (p : SSP.LmpPacket → Bool) :
    SSP.countRecv p [] = 0 := rfl

theorem SSP.countSent_cons (p : SSP.LmpPacket → Bool) (e : SSP.Event)
    (t : List SSP.Event) :
    SSP.countSent p (e :: t) =
      SSP.countSent p t +
        (match e with
          | .lmpSent q => if p q then 1 else 0
          | _ => 0) := by
  rw [SSP.countSent, SSP.countSent, List.countP_cons]
  cases e <;> simp

theorem SSP.countRecv_cons (p : SSP.LmpPacket → Bool) (e : SSP.Event)
    (t : List SSP.Event) :
    SSP.countRecv p (e :: t) =
      SSP.countRecv p t +
        (match e with
          | .lmpRecv q => if p q then 1 else 0
          | _ => 0) := by
  rw [SSP.countRecv, SSP.countRecv, List.countP_cons]
  cases e <;> simp

/-- C4: when the selected method is Passkey Entry, a completed run of
`initiate` whose Stage 1 succeeded performs exactly 20 commitment
rounds with `skip_first = false` — observable as exactly 20 sent and 20
received `SimplePairingConfirm` frames — and a completed run of
`respond` likewise performs exactly 20 rounds. -/
theorem SSP.c4_passkey_twenty_rounds :
    ∀ (envI : SSP.InitiateEnv) (envR : SSP.RespondEnv) (r r' : Bool),
      (SSP.authentication_method envI.hostReply envI.peerRes
          = .passkeyEntry →
        (SSP.initiate envI).2 = some r →
        (SSP.initiate_stage1 .passkeyEntry envI.hostReply envI).2
          = some true →
        SSP.countSent SSP.isConfirmP (SSP.initiate envI).1 = 20 ∧
          SSP.countRecv SSP.isConfirmP (SSP.initiate envI).1 = 20) ∧
      (SSP.authentication_method envR.request envR.hostReply
          = .passkeyEntry →
        (SSP.respond envR).2 = some r' →
        SSP.countSent SSP.isConfirmP (SSP.respond envR).1 = 20 ∧
          SSP.countRecv SSP.isConfirmP (SSP.respond envR).1 = 20) := by
  intro envI envR r r'
  constructor
  · intro hm hcomplete hs1true
    have hcap1 : SSP.countSent SSP.isConfirmP
        (SSP.initiate_capability envI.hostReply envI.peerRes).1 = 0 := by
      rw [SSP.initiate_capability_eval]
      simp [SSP.countSent_cons, SSP.countSent_nil, SSP.isConfirmP]
    have hcap2 : SSP.countRecv SSP.isConfirmP
        (SSP.initiate_capability envI.hostReply envI.peerRes).1 = 0 := by
      rw [SSP.initiate_capability_eval]
      simp [SSP.countRecv_cons, SSP.countRecv_nil, SSP.isConfirmP]
    have htk1 := @SSP.countSent_eq_zero_of_allSent SSP.isConfirmP
      SSP.keyExchangePacket _ (SSP.initiate_key_exchange_allSent envI)
      (fun x hx => SSP.keyExchangePacket_not_confirm hx)
    have htk2 := @SSP.countRecv_eq_zero_of_allRecv SSP.isConfirmP
      SSP.keyExchangeRecvPacket _ (SSP.initiate_key_exchange_allRecv envI)
      (fun x hx => SSP.keyExchangeRecvPacket_not_confirm hx)
    obtain ⟨hts1, hts2⟩ := SSP.initiate_stage1_passkey_counts
      envI.hostReply envI hs1true
    rcases SSP.initiate_cases envI with
      ⟨tk, hkey, heq⟩ | ⟨tk, pk, ts, hkey, hs1, heq⟩ |
      ⟨tk, pk, ts, hkey, hs1, heq⟩ | ⟨tk, pk, ts, hkey, hs1, _, heq⟩ |
      ⟨tk, pk, ts, hkey, hs1, _, _, heq⟩ |
      ⟨tk, pk, ts, hkey, hs1, _, _, heq⟩
    · rw [heq] at hcomplete
      simp at hcomplete
    · rw [hm] at hs1
      rw [hs1] at hts1 hts2
      simp only at hts1
      rw [heq] at hcomplete
      simp at hcomplete
    all_goals (
      rw [hm] at hs1
      rw [hkey] at htk1 htk2
      rw [hs1] at hts1 hts2
      simp only at htk1 htk2 hts1 hts2
      rw [heq]
      simp only [SSP.countSent_append, SSP.countRecv_append,
        SSP.countSent_cons, SSP.countRecv_cons, SSP.countSent_nil,
        SSP.countRecv_nil, SSP.isConfirmP, htk1, htk2, hts1, hts2,
        hcap1, hcap2]
      constructor <;> simp)
  · intro hm hcomplete
    have hcap1 : SSP.countSent SSP.isConfirmP
        (SSP.respond_capability envR.request envR.hostReply).1 = 0 := by
      rw [SSP.respond_capability_eval]
      simp [SSP.countSent_cons, SSP.countSent_nil, SSP.isConfirmP]
    have hcap2 : SSP.countRecv SSP.isConfirmP
        (SSP.respond_capability envR.request envR.hostReply).1 = 0 := by
      rw [SSP.respond_capability_eval]
      simp [SSP.countRecv_cons, SSP.countRecv_nil, SSP.isConfirmP]
    have htk1 := @SSP.countSent_eq_zero_of_allSent SSP.isConfirmP
      SSP.keyExchangePacket _ (SSP.respond_key_exchange_allSent envR)
      (fun x hx => SSP.keyExchangePacket_not_confirm hx)
    have htk2 := @SSP.countRecv_eq_zero_of_allRecv SSP.isConfirmP
      SSP.keyExchangeRecvPacket _ (SSP.respond_key_exchange_allRecv envR)
      (fun x hx => SSP.keyExchangeRecvPacket_not_confirm hx)
    rcases SSP.respond_cases envR with
      ⟨tk, hkey, heq⟩ | ⟨tk, pk, ts, hkey, hs1, heq⟩ |
      ⟨tk, pk, ts, neg, hkey, hs1, _, heq⟩ |
      ⟨tk, pk, ts, hkey, hs1, _, heq⟩ |
      ⟨tk, pk, ts, hkey, hs1, _, _, heq⟩ |
      ⟨tk, pk, ts, hkey, hs1, _, _, heq⟩
    · rw [heq] at hcomplete
      simp at hcomplete
    · rw [heq] at hcomplete
      simp at hcomplete
    · rw [hm] at hs1
      obtain ⟨hts1, hts2⟩ := SSP.respond_stage1_passkey_counts
        envR.hostReply envR neg (by rw [hs1])
      rw [hs1] at hts1 hts2
      simp only at hts1 hts2
      rw [hkey] at htk1 htk2
      simp only at htk1 htk2
      rw [heq]
      simp only [SSP.countSent_append, SSP.countRecv_append,
        SSP.countSent_cons, SSP.countRecv_cons, SSP.countSent_nil,
        SSP.countRecv_nil, SSP.isConfirmP, htk1, htk2, hts1, hts2,
        hcap1, hcap2]
      constructor <;> simp
    · rw [hm] at hs1
      obtain ⟨hts1, hts2⟩ := SSP.respond_stage1_passkey_counts
        envR.hostReply envR true (by rw [hs1])
      rw [hs1] at hts1 hts2
      simp only at hts1 hts2
      rw [hkey] at htk1 htk2
      simp only at htk1 htk2
      rw [heq]
      simp only [SSP.countSent_append, SSP.countRecv_append,
        SSP.countSent_cons, SSP.countRecv_cons, SSP.countSent_nil,
        SSP.countRecv_nil, SSP.isConfirmP, htk1, htk2, hts1, hts2,
        hcap1, hcap2]
      constructor <;> simp
    all_goals (
      rw [hm] at hs1
      obtain ⟨hts1, hts2⟩ := SSP.respond_stage1_passkey_counts
        envR.hostReply envR false (by rw [hs1])
      rw [hs1] at hts1 hts2
      simp only at hts1 hts2
      rw [hkey] at htk1 htk2
      simp only at htk1 htk2
      rw [heq]
      simp only [SSP.countSent_append, SSP.countRecv_append,
        SSP.countSent_cons, SSP.countRecv_cons, SSP.countSent_nil,
        SSP.countRecv_nil, SSP.isConfirmP, htk1, htk2, hts1, hts2,
        hcap1, hcap2]
      constructor <;> simp)

theorem SSP.c4_passkey_twenty_rounds_witness :
    SSP.countSent SSP.isConfirmP (SSP.initiate { SSP.envInit0 with
        hostReply := ⟨.keyboardOnly, .notPresent,
          .generalBondingMitmProtection⟩ }).1 = 20 ∧
      SSP.countRecv SSP.isConfirmP (SSP.initiate { SSP.envInit0 with
        hostReply := ⟨.keyboardOnly, .notPresent,
          .generalBondingMitmProtection⟩ }).1 = 20 ∧
      SSP.countSent SSP.isConfirmP (SSP.respond { SSP.envResp0 with
        hostReply := ⟨.keyboardOnly, .notPresent,
          .generalBondingMitmProtection⟩ }).1 = 20 ∧
      SSP.countRecv SSP.isConfirmP (SSP.respond { SSP.envResp0 with
        hostReply := ⟨.keyboardOnly, .notPresent,
          .generalBondingMitmProtection⟩ }).1 = 20 := by
  obtain ⟨h1, h2⟩ := SSP.c4_passkey_twenty_rounds
    { SSP.envInit0 with hostReply := ⟨.keyboardOnly, .notPresent,
        .generalBondingMitmProtection⟩ }
    { SSP.envResp0 with hostReply := ⟨.keyboardOnly, .notPresent,
        .generalBondingMitmProtection⟩ }
    true true
  have ha := h1 (by decide) (by decide) (by decide)
  have hb := h2 (by decide) (by decide)
  exact ⟨ha.1, ha.2, hb.1, hb.2⟩

/-! ### Count-transfer helpers -/

theorem SSP.initiate_confirm_transfer (env : SSP.InitiateEnv) (r : Bool)
    (a b : Nat) (hcomplete : (SSP.initiate env).2 = some r)
    (hts1 : SSP.countSent SSP.isConfirmP
      (SSP.initiate_stage1
        (SSP.authentication_method env.hostReply env.peerRes)
        env.hostReply env).1 = a)
    (hts2 : SSP.countRecv SSP.isConfirmP
      (SSP.initiate_stage1
        (SSP.authentication_method env.hostReply env.peerRes)
        env.hostReply env).1 = b) :
    SSP.countSent SSP.isConfirmP (SSP.initiate env).1 = a ∧
      SSP.countRecv SSP.isConfirmP (SSP.initiate env).1 = b := by
  have hcap1 : SSP.countSent SSP.isConfirmP
      (SSP.initiate_capability env.hostReply env.peerRes).1 = 0 := by
    rw [SSP.initiate_capability_eval]
    simp [SSP.countSent_cons, SSP.countSent_nil, SSP.isConfirmP]
  have hcap2 : SSP.countRecv SSP.isConfirmP
      (SSP.initiate_capability env.hostReply env.peerRes).1 = 0 := by
    rw [SSP.initiate_capability_eval]
    simp [SSP.countRecv_cons, SSP.countRecv_nil, SSP.isConfirmP]
  have htk1 := @SSP.countSent_eq_zero_of_allSent SSP.isConfirmP
    SSP.keyExchangePacket _ (SSP.initiate_key_exchange_allSent env)
    (fun x hx => SSP.keyExchangePacket_not_confirm hx)
  have htk2 := @SSP.countRecv_eq_zero_of_allRecv SSP.isConfirmP
    SSP.keyExchangeRecvPacket _ (SSP.initiate_key_exchange_allRecv env)
    (fun x hx => SSP.keyExchangeRecvPacket_not_confirm hx)
  rcases SSP.initiate_cases env with
    ⟨tk, hkey, heq⟩ | ⟨tk, pk, ts, hkey, hs1, heq⟩ |
    ⟨tk, pk, ts, hkey, hs1, heq⟩ | ⟨tk, pk, ts, hkey, hs1, _, heq⟩ |
    ⟨tk, pk, ts, hkey, hs1, _, _, heq⟩ |
    ⟨tk, pk, ts, hkey, hs1, _, _, heq⟩
  · rw [heq] at hcomplete
    simp at hcomplete
  · rw [heq] at hcomplete
    simp at hcomplete
  all_goals (
    rw [hkey] at htk1 htk2
    rw [hs1] at hts1 hts2
    simp only at htk1 htk2 hts1 hts2
    rw [heq]
    simp only [SSP.countSent_append, SSP.countRecv_append,
      SSP.countSent_cons, SSP.countRecv_cons, SSP.countSent_nil,
      SSP.countRecv_nil, SSP.isConfirmP, htk1, htk2, hts1, hts2,
      hcap1, hcap2]
    constructor <;> simp)

theorem SSP.respond_confirm_transfer (env : SSP.RespondEnv) (r : Bool)
    (a b : Nat) (hcomplete : (SSP.respond env).2 = some r)
    (hts1 : SSP.countSent SSP.isConfirmP
      (SSP.respond_stage1
        (SSP.authentication_method env.request env.hostReply)
        env.hostReply env).1 = a)
    (hts2 : SSP.countRecv SSP.isConfirmP
      (SSP.respond_stage1
        (SSP.authentication_method env.request env.hostReply)
        env.hostReply env).1 = b) :
    SSP.countSent SSP.isConfirmP (SSP.respond env).1 = a ∧
      SSP.countRecv SSP.isConfirmP (SSP.respond env).1 = b := by
  have hcap1 : SSP.countSent SSP.isConfirmP
      (SSP.respond_capability env.request env.hostReply).1 = 0 := by
    rw [SSP.respond_capability_eval]
    simp [SSP.countSent_cons, SSP.countSent_nil, SSP.isConfirmP]
  have hcap2 : SSP.countRecv SSP.isConfirmP
      (SSP.respond_capability env.request env.hostReply).1 = 0 := by
    rw [SSP.respond_capability_eval]
    simp [SSP.countRecv_cons, SSP.countRecv_nil, SSP.isConfirmP]
  have htk1 := @SSP.countSent_eq_zero_of_allSent SSP.isConfirmP
    SSP.keyExchangePacket _ (SSP.respond_key_exchange_allSent env)
    (fun x hx => SSP.keyExchangePacket_not_confirm hx)
  have htk2 := @SSP.countRecv_eq_zero_of_allRecv SSP.isConfirmP
    SSP.keyExchangeRecvPacket _ (SSP.respond_key_exchange_allRecv env)
    (fun x hx => SSP.keyExchangeRecvPacket_not_confirm hx)
  rcases SSP.respond_cases env with
    ⟨tk, hkey, heq⟩ | ⟨tk, pk, ts, hkey, hs1, heq⟩ |
    ⟨tk, pk, ts, neg, hkey, hs1, _, heq⟩ |
    ⟨tk, pk, ts, hkey, hs1, _, heq⟩ |
    ⟨tk, pk, ts, hkey, hs1, _, _, heq⟩ |
    ⟨tk, pk, ts, hkey, hs1, _, _, heq⟩
  · rw [heq] at hcomplete
    simp at hcomplete
  · rw [heq] at hcomplete
    simp at hcomplete
  all_goals (
    rw [hkey] at htk1 htk2
    rw [hs1] at hts1 hts2
    simp only at htk1 htk2 hts1 hts2
    rw [heq]
    simp only [SSP.countSent_append, SSP.countRecv_append,
      SSP.countSent_cons, SSP.countRecv_cons, SSP.countSent_nil,
      SSP.countRecv_nil, SSP.isConfirmP, htk1, htk2, hts1, hts2,
      hcap1, hcap2]
    constructor <;> simp)

/-- C5 counterexample: the claim says the initial confirm exchange of
the single Out-Of-Band commitment round is suppressed via `skip_first`
(as it is for Numeric Comparison), i.e. an OOB run of `initiate` would
send no `SimplePairingConfirm`.  On this concrete OOB environment the
run completes, its Stage 1 succeeds, and `initiate` sends exactly one
`SimplePairingConfirm`: the call uses `skip_first = false`, so the
initial confirm is not suppressed. -/
theorem SSP.c5_oob_skip_first_counterexample :
    SSP.authentication_method
        (⟨.displayYesNo, .p192Present, .generalBondingMitmProtection⟩ :
          SSP.AuthenticationParams)
        (⟨.displayYesNo, .notPresent, .generalBondingMitmProtection⟩ :
          SSP.AuthenticationParams) = .outOfBand ∧
      (SSP.initiate { SSP.envInit0 with
        hostReply := ⟨.displayYesNo, .p192Present,
          .generalBondingMitmProtection⟩ }).2 = some true ∧
      (SSP.initiate_stage1 .outOfBand
        ⟨.displayYesNo, .p192Present, .generalBondingMitmProtection⟩
        { SSP.envInit0 with
          hostReply := ⟨.displayYesNo, .p192Present,
            .generalBondingMitmProtection⟩ }).2 = some true ∧
      SSP.countSent SSP.isConfirmP (SSP.initiate { SSP.envInit0 with
        hostReply := ⟨.displayYesNo, .p192Present,
          .generalBondingMitmProtection⟩ }).1 = 1 ∧
      ¬ SSP.countSent SSP.isConfirmP (SSP.initiate { SSP.envInit0 with
        hostReply := ⟨.displayYesNo, .p192Present,
          .generalBondingMitmProtection⟩ }).1 = 0 := by
  refine ⟨by decide, by decide, by decide, by decide, by decide⟩

/-- C5 amended: `skip_first` suppresses the initial confirm exchange
only for Numeric Comparison; the Out-Of-Band round runs with
`skip_first = false` exactly like a Passkey Entry iteration.
Observably: a completed Numeric Comparison run of `initiate` sends 0
`SimplePairingConfirm` frames and receives 1, while a completed OOB run
whose Stage 1 succeeded sends 1 and receives 1; a completed Numeric
Comparison run of `respond` receives 0 confirm frames (the skipped
first confirm) and sends 1, while a completed OOB run receives 1 and
sends 1. -/
theorem SSP.c5_skip_first_only_numeric_comparison :
    ∀ (envI : SSP.InitiateEnv) (envR : SSP.RespondEnv) (r r' : Bool),
      ((SSP.authentication_method envI.hostReply envI.peerRes
            = .numericComparaisonJustWork ∨
          SSP.authentication_method envI.hostReply envI.peerRes
            = .numericComparaisonUserConfirm) →
        (SSP.initiate envI).2 = some r →
        SSP.countSent SSP.isConfirmP (SSP.initiate envI).1 = 0 ∧
          SSP.countRecv SSP.isConfirmP (SSP.initiate envI).1 = 1) ∧
      (SSP.authentication_method envI.hostReply envI.peerRes
          = .outOfBand →
        (SSP.initiate envI).2 = some r →
        (SSP.initiate_stage1 .outOfBand envI.hostReply envI).2
          = some true →
        SSP.countSent SSP.isConfirmP (SSP.initiate envI).1 = 1 ∧
          SSP.countRecv SSP.isConfirmP (SSP.initiate envI).1 = 1) ∧
      ((SSP.authentication_method envR.request envR.hostReply
            = .numericComparaisonJustWork ∨
          SSP.authentication_method envR.request envR.hostReply
            = .numericComparaisonUserConfirm) →
        (SSP.respond envR).2 = some r' →
        SSP.countSent SSP.isConfirmP (SSP.respond envR).1 = 1 ∧
          SSP.countRecv SSP.isConfirmP (SSP.respond envR).1 = 0) ∧
      (SSP.authentication_method envR.request envR.hostReply
          = .outOfBand →
        (SSP.respond envR).2 = some r' →
        (SSP.respond_stage1 .outOfBand envR.hostReply envR).2
          = some false →
        SSP.countSent SSP.isConfirmP (SSP.respond envR).1 = 1 ∧
          SSP.countRecv SSP.isConfirmP (SSP.respond envR).1 = 1) := by
  intro envI envR r r'
  refine ⟨?_, ?_, ?_, ?_⟩
  · intro hm hcomplete
    obtain ⟨hts1, hts2⟩ := SSP.initiate_stage1_nc_counts
      (SSP.authentication_method envI.hostReply envI.peerRes)
      envI.hostReply envI hm
    exact SSP.initiate_confirm_transfer envI r 0 1 hcomplete hts1 hts2
  · intro hm hcomplete hs1
    obtain ⟨hts1, hts2⟩ := SSP.initiate_stage1_oob_counts
      envI.hostReply envI hs1
    rw [← hm] at hts1 hts2
    exact SSP.initiate_confirm_transfer envI r 1 1 hcomplete hts1 hts2
  · intro hm hcomplete
    obtain ⟨hts1, hts2⟩ := SSP.respond_stage1_nc_counts
      (SSP.authentication_method envR.request envR.hostReply)
      envR.hostReply envR hm
    exact SSP.respond_confirm_transfer envR r' 1 0 hcomplete hts1 hts2
  · intro hm hcomplete hs1
    obtain ⟨hts1, hts2⟩ := SSP.respond_stage1_oob_counts
      envR.hostReply envR false hs1
    rw [← hm] at hts1 hts2
    exact SSP.respond_confirm_transfer envR r' 1 1 hcomplete hts1 hts2

theorem SSP.c5_skip_first_only_numeric_comparison_witness :
    (SSP.countSent SSP.isConfirmP (SSP.initiate SSP.envInit0).1 = 0 ∧
      SSP.countRecv SSP.isConfirmP (SSP.initiate SSP.envInit0).1 = 1) ∧
    (SSP.countSent SSP.isConfirmP (SSP.initiate { SSP.envInit0 with
        hostReply := ⟨.displayYesNo, .p192Present,
          .generalBondingMitmProtection⟩ }).1 = 1 ∧
      SSP.countRecv SSP.isConfirmP (SSP.initiate { SSP.envInit0 with
        hostReply := ⟨.displayYesNo, .p192Present,
          .generalBondingMitmProtection⟩ }).1 = 1) ∧
    (SSP.countSent SSP.isConfirmP (SSP.respond SSP.envResp0).1 = 1 ∧
      SSP.countRecv SSP.isConfirmP (SSP.respond SSP.envResp0).1 = 0) ∧
    (SSP.countSent SSP.isConfirmP (SSP.respond { SSP.envResp0 with
        hostReply := ⟨.displayYesNo, .p192Present,
          .generalBondingMitmProtection⟩ }).1 = 1 ∧
      SSP.countRecv SSP.isConfirmP (SSP.respond { SSP.envResp0 with
        hostReply := ⟨.displayYesNo, .p192Present,
          .generalBondingMitmProtection⟩ }).1 = 1) := by
  obtain ⟨h1, h2, _, _⟩ := SSP.c5_skip_first_only_numeric_comparison
    SSP.envInit0 SSP.envResp0 true true
  obtain ⟨_, h2o, h3, _⟩ := SSP.c5_skip_first_only_numeric_comparison
    { SSP.envInit0 with hostReply := ⟨.displayYesNo, .p192Present,
        .generalBondingMitmProtection⟩ }
    SSP.envResp0 true true
  obtain ⟨_, _, _, h4⟩ := SSP.c5_skip_first_only_numeric_comparison
    SSP.envInit0
    { SSP.envResp0 with hostReply := ⟨.displayYesNo, .p192Present,
        .generalBondingMitmProtection⟩ }
    true true
  exact ⟨h1 (by decide) (by decide),
    h2o (by decide) (by decide) (by decide),
    h3 (by decide) (by decide),
    h4 (by decide) (by decide) (by decide)⟩

theorem SSP.respond_stage1_nc_result (m : SSP.AuthenticationMethod)
    (r : SSP.AuthenticationParams) (env : SSP.RespondEnv)
    (hm : m = .numericComparaisonJustWork ∨
      m = .numericComparaisonUserConfirm) :
    (SSP.respond_stage1 m r env).2 = some (!env.confirmationReply) := by
  have hdone : (SSP.receive_commitment true (env.commitEnvs 0)).2
      = some () := by
    rw [SSP.receive_commitment_result]; simp
  rcases h1 : SSP.receive_commitment true (env.commitEnvs 0) with ⟨t, o⟩
  rw [h1] at hdone
  subst hdone
  rcases hm with hm | hm <;> subst hm <;>
    cases hb : env.confirmationReply <;>
    simp [SSP.respond_stage1, h1, SSP.bind_fst_some,
      SSP.user_confirmation_request_eval, hb, SSP.Proc.bind, SSP.Proc.ret]

/-- C6: in `respond`, when the Stage-2 gate receives a `DhkeyCheck` and
the remembered Numeric Comparison user confirmation was negative, the
machine sends LMP `NotAccepted{not_accepted_opcode = DhkeyCheck,
error_code = AuthenticationFailure}`, then emits HCI
`SimplePairingComplete{AuthenticationFailure}`, and returns failure —
and the whole run sends neither an `Accepted{DhkeyCheck}` nor its own
`DhkeyCheck`. -/
theorem SSP.c6_respond_negative_confirmation_rejects_dhkey :
    ∀ (env : SSP.RespondEnv) (r : Bool),
      (SSP.authentication_method env.request env.hostReply
          = .numericComparaisonJustWork ∨
        SSP.authentication_method env.request env.hostReply
          = .numericComparaisonUserConfirm) →
      env.confirmationReply = false →
      env.gate = true →
      (SSP.respond env).2 = some r →
      r = false ∧
      (∃ t, (SSP.respond env).1 = t ++
        [.lmpRecv (.dhkeyCheck 0 env.peerDhkey),
         .lmpSent (.notAccepted 0 .dhkeyCheck .authenticationFailure),
         .hciSent (.simplePairingComplete .authenticationFailure)]) ∧
      SSP.countSent SSP.isAcceptedDhkeyP (SSP.respond env).1 = 0 ∧
      SSP.countSent SSP.isDhkeyCheckP (SSP.respond env).1 = 0 := by
  intro env r hm hneg hg hcomplete
  have hs1res := SSP.respond_stage1_nc_result
    (SSP.authentication_method env.request env.hostReply)
    env.hostReply env hm
  rw [hneg] at hs1res
  have hcapA : SSP.countSent SSP.isAcceptedDhkeyP
      (SSP.respond_capability env.request env.hostReply).1 = 0 := by
    rw [SSP.respond_capability_eval]
    simp [SSP.countSent_cons, SSP.countSent_nil, SSP.isAcceptedDhkeyP]
  have hcapD : SSP.countSent SSP.isDhkeyCheckP
      (SSP.respond_capability env.request env.hostReply).1 = 0 := by
    rw [SSP.respond_capability_eval]
    simp [SSP.countSent_cons, SSP.countSent_nil, SSP.isDhkeyCheckP]
  have htkA := @SSP.countSent_eq_zero_of_allSent SSP.isAcceptedDhkeyP
    SSP.keyExchangePacket _ (SSP.respond_key_exchange_allSent env)
    (fun x hx => (SSP.keyExchangePacket_not_dhkey hx).1)
  have htkD := @SSP.countSent_eq_zero_of_allSent SSP.isDhkeyCheckP
    SSP.keyExchangePacket _ (SSP.respond_key_exchange_allSent env)
    (fun x hx => (SSP.keyExchangePacket_not_dhkey hx).2)
  have htsA := @SSP.countSent_eq_zero_of_allSent SSP.isAcceptedDhkeyP
    SSP.commitmentPacket _
    (SSP.respond_stage1_allSent
      (SSP.authentication_method env.request env.hostReply)
      env.hostReply env)
    (fun x hx => (SSP.commitmentPacket_not_confirm_free hx).1)
  have htsD := @SSP.countSent_eq_zero_of_allSent SSP.isDhkeyCheckP
    SSP.commitmentPacket _
    (SSP.respond_stage1_allSent
      (SSP.authentication_method env.request env.hostReply)
      env.hostReply env)
    (fun x hx => (SSP.commitmentPacket_not_confirm_free hx).2)
  rcases SSP.respond_cases env with
    ⟨tk, hkey, heq⟩ | ⟨tk, pk, ts, hkey, hs1, heq⟩ |
    ⟨tk, pk, ts, neg, hkey, hs1, hgf, heq⟩ |
    ⟨tk, pk, ts, hkey, hs1, _, heq⟩ |
    ⟨tk, pk, ts, hkey, hs1, _, _, heq⟩ |
    ⟨tk, pk, ts, hkey, hs1, _, _, heq⟩
  · rw [heq] at hcomplete
    simp at hcomplete
  · rw [hs1] at hs1res
    simp at hs1res
  · rw [hgf] at hg
    simp at hg
  · rw [heq] at hcomplete
    simp at hcomplete
    subst hcomplete
    rw [hkey] at htkA htkD
    rw [hs1] at htsA htsD
    simp only at htkA htkD htsA htsD
    refine ⟨rfl, ⟨(SSP.respond_capability env.request env.hostReply).1 ++
      tk ++ ts, ?_⟩, ?_, ?_⟩
    · rw [heq]
      try simp
    · rw [heq]
      simp only [SSP.countSent_append, SSP.countSent_cons,
        SSP.countSent_nil, SSP.isAcceptedDhkeyP, SSP.isDhkeyCheckP,
        htkA, htkD, htsA, htsD, hcapA, hcapD]
      try simp
    · rw [heq]
      simp only [SSP.countSent_append, SSP.countSent_cons,
        SSP.countSent_nil, SSP.isAcceptedDhkeyP, SSP.isDhkeyCheckP,
        htkA, htkD, htsA, htsD, hcapA, hcapD]
      try simp
  · rw [hs1] at hs1res
    simp at hs1res
  · rw [hs1] at hs1res
    simp at hs1res

theorem SSP.c6_respond_negative_confirmation_rejects_dhkey_witness :
    (∃ t, (SSP.respond { SSP.envResp0 with confirmationReply := false }).1
        = t ++
          [.lmpRecv (.dhkeyCheck 0 (SSP.zeros 16)),
           .lmpSent (.notAccepted 0 .dhkeyCheck .authenticationFailure),
           .hciSent (.simplePairingComplete .authenticationFailure)]) ∧
      SSP.countSent SSP.isAcceptedDhkeyP
        (SSP.respond { SSP.envResp0 with confirmationReply := false }).1
        = 0 ∧
      SSP.countSent SSP.isDhkeyCheckP
        (SSP.respond { SSP.envResp0 with confirmationReply := false }).1
        = 0 := by
  obtain ⟨h1, h2, h3, h4⟩ :=
    SSP.c6_respond_negative_confirmation_rejects_dhkey
      { SSP.envResp0 with confirmationReply := false } false
      (by decide) rfl rfl (by decide)
  exact ⟨h2, h3, h4⟩

/-! ### Terminal-event counting -/

theorem SSP.countHci_nil (p : SSP.HciEvent → Bool) :
    SSP.countHci p [] = 0 := rfl

theorem SSP.countHci_cons (p : SSP.HciEvent → Bool) (e : SSP.Event)
    (t : List SSP.Event) :
    SSP.countHci p (e :: t) =
      SSP.countHci p t +
        (match e with
          | .hciSent h => if p h then 1 else 0
          | _ => 0) := by
  rw [SSP.countHci, SSP.countHci, List.countP_cons]
  cases e <;> simp

theorem SSP.benignHci_not_spc {h : SSP.HciEvent} (s : SSP.ErrorCode)
    (hb : SSP.benignHci h = true) : SSP.isSpcH s h = false := by
  cases h <;> simp_all [SSP.benignHci, SSP.isSpcH]

theorem SSP.benignHci_not_lkn {h : SSP.HciEvent}
    (hb : SSP.benignHci h = true) : SSP.isLknH h = false := by
  cases h <;> simp_all [SSP.benignHci, SSP.isLknH]

/-- C2 counterexample: the claim's third alternative says a run whose
challenge/response step fails emits neither of the two terminal events.
On this concrete environment — a fully successful Numeric Comparison
run except that `authentication::send_challenge` fails — `initiate`
completes with failure having emitted one
`SimplePairingComplete{Success}` and no `LinkKeyNotification`, which
matches none of the claim's three alternatives. -/
theorem SSP.c2_terminal_events_counterexample :
    (SSP.initiate { SSP.envInit0 with sendChallengeOk := false }).2
        = some false ∧
      SSP.spcCount .success
        (SSP.initiate { SSP.envInit0 with sendChallengeOk := false }).1
        = 1 ∧
      SSP.spcCount .authenticationFailure
        (SSP.initiate { SSP.envInit0 with sendChallengeOk := false }).1
        = 0 ∧
      SSP.lknCount
        (SSP.initiate { SSP.envInit0 with sendChallengeOk := false }).1
        = 0 ∧
      ¬ ((SSP.spcCount .success
            (SSP.initiate { SSP.envInit0 with
              sendChallengeOk := false }).1 = 1 ∧
          SSP.spcCount .authenticationFailure
            (SSP.initiate { SSP.envInit0 with
              sendChallengeOk := false }).1 = 0 ∧
          SSP.lknCount
            (SSP.initiate { SSP.envInit0 with
              sendChallengeOk := false }).1 = 1) ∨
        (SSP.spcCount .authenticationFailure
            (SSP.initiate { SSP.envInit0 with
              sendChallengeOk := false }).1 = 1 ∧
          SSP.spcCount .success
            (SSP.initiate { SSP.envInit0 with
              sendChallengeOk := false }).1 = 0 ∧
          SSP.lknCount
            (SSP.initiate { SSP.envInit0 with
              sendChallengeOk := false }).1 = 0) ∨
        (SSP.spcCount .success
            (SSP.initiate { SSP.envInit0 with
              sendChallengeOk := false }).1 = 0 ∧
          SSP.spcCount .authenticationFailure
            (SSP.initiate { SSP.envInit0 with
              sendChallengeOk := false }).1 = 0 ∧
          SSP.lknCount
            (SSP.initiate { SSP.envInit0 with
              sendChallengeOk := false }).1 = 0)) := by
  refine ⟨by decide, by decide, by decide, by decide, by decide⟩

/-- C2 amended: every complete run of `initiate` or `respond` emits
exactly one terminal event pattern: either one
`SimplePairingComplete{Success}` immediately followed by the single
`LinkKeyNotification`, or one `SimplePairingComplete
{AuthenticationFailure}` with no notification, or — when the
challenge/response step fails — one `SimplePairingComplete{Success}`
with no notification (the Success event precedes the challenge). -/
theorem SSP.c2_terminal_events :
    ∀ (envI : SSP.InitiateEnv) (envR : SSP.RespondEnv) (r r' : Bool),
      ((SSP.initiate envI).2 = some r →
        (SSP.spcCount .success (SSP.initiate envI).1 = 1 ∧
          SSP.spcCount .authenticationFailure (SSP.initiate envI).1 = 0 ∧
          SSP.lknCount (SSP.initiate envI).1 = 1 ∧
          ∃ t' kt, (SSP.initiate envI).1 = t' ++
            [.hciSent (.simplePairingComplete .success),
             .hciSent (.linkKeyNotif kt (SSP.zeros 16))]) ∨
        (SSP.spcCount .authenticationFailure (SSP.initiate envI).1 = 1 ∧
          SSP.spcCount .success (SSP.initiate envI).1 = 0 ∧
          SSP.lknCount (SSP.initiate envI).1 = 0) ∨
        (SSP.spcCount .success (SSP.initiate envI).1 = 1 ∧
          SSP.spcCount .authenticationFailure (SSP.initiate envI).1 = 0 ∧
          SSP.lknCount (SSP.initiate envI).1 = 0)) ∧
      ((SSP.respond envR).2 = some r' →
        (SSP.spcCount .success (SSP.respond envR).1 = 1 ∧
          SSP.spcCount .authenticationFailure (SSP.respond envR).1 = 0 ∧
          SSP.lknCount (SSP.respond envR).1 = 1 ∧
          ∃ t' kt, (SSP.respond envR).1 = t' ++
            [.hciSent (.simplePairingComplete .success),
             .hciSent (.linkKeyNotif kt (SSP.zeros 16))]) ∨
        (SSP.spcCount .authenticationFailure (SSP.respond envR).1 = 1 ∧
          SSP.spcCount .success (SSP.respond envR).1 = 0 ∧
          SSP.lknCount (SSP.respond envR).1 = 0) ∨
        (SSP.spcCount .success (SSP.respond envR).1 = 1 ∧
          SSP.spcCount .authenticationFailure (SSP.respond envR).1 = 0 ∧
          SSP.lknCount (SSP.respond envR).1 = 0)) := by
  intro envI envR r r'
  constructor
  · intro hcomplete
    have hcapS : ∀ s, SSP.spcCount s
        (SSP.initiate_capability envI.hostReply envI.peerRes).1 = 0 := by
      intro s
      rw [SSP.initiate_capability_eval]
      simp [SSP.spcCount, SSP.countHci_cons, SSP.countHci_nil, SSP.isSpcH]
    have hcapL : SSP.lknCount
        (SSP.initiate_capability envI.hostReply envI.peerRes).1 = 0 := by
      rw [SSP.initiate_capability_eval]
      simp [SSP.lknCount, SSP.countHci_cons, SSP.countHci_nil, SSP.isLknH]
    have htkS : ∀ s, SSP.spcCount s (SSP.initiate_key_exchange envI).1
        = 0 := fun s =>
      SSP.countHci_eq_zero_of_noHci (SSP.initiate_key_exchange_noHci envI)
    have htkL : SSP.lknCount (SSP.initiate_key_exchange envI).1 = 0 :=
      SSP.countHci_eq_zero_of_noHci (SSP.initiate_key_exchange_noHci envI)
    have htsS : ∀ s, SSP.spcCount s
        (SSP.initiate_stage1
          (SSP.authentication_method envI.hostReply envI.peerRes)
          envI.hostReply envI).1 = 0 := fun s =>
      SSP.countHci_eq_zero_of_allHci
        (SSP.initiate_stage1_benign
          (SSP.authentication_method envI.hostReply envI.peerRes)
          envI.hostReply envI)
        (fun x hx => SSP.benignHci_not_spc s hx)
    have htsL : SSP.lknCount
        (SSP.initiate_stage1
          (SSP.authentication_method envI.hostReply envI.peerRes)
          envI.hostReply envI).1 = 0 :=
      SSP.countHci_eq_zero_of_allHci
        (SSP.initiate_stage1_benign
          (SSP.authentication_method envI.hostReply envI.peerRes)
          envI.hostReply envI)
        (fun x hx => SSP.benignHci_not_lkn hx)
    rcases SSP.initiate_cases envI with
      ⟨tk, hkey, heq⟩ | ⟨tk, pk, ts, hkey, hs1, heq⟩ |
      ⟨tk, pk, ts, hkey, hs1, heq⟩ | ⟨tk, pk, ts, hkey, hs1, _, heq⟩ |
      ⟨tk, pk, ts, hkey, hs1, _, _, heq⟩ |
      ⟨tk, pk, ts, hkey, hs1, _, _, heq⟩
    · rw [heq] at hcomplete
      simp at hcomplete
    · rw [heq] at hcomplete
      simp at hcomplete
    · refine Or.inr (Or.inl ?_)
      rw [hkey] at htkS htkL
      rw [hs1] at htsS htsL
      simp only at htkS htkL htsS htsL
      rw [heq]
      dsimp only
      simp only [SSP.spcCount, SSP.lknCount] at htkS htkL htsS htsL hcapS hcapL ⊢
      simp only [SSP.countHci_append, SSP.countHci_cons, SSP.countHci_nil,
        htkS, htkL, htsS, htsL, hcapS, hcapL, SSP.isSpcH, SSP.isLknH]
      refine ⟨by decide, by decide, by decide⟩
    · refine Or.inr (Or.inl ?_)
      rw [hkey] at htkS htkL
      rw [hs1] at htsS htsL
      simp only at htkS htkL htsS htsL
      rw [heq]
      dsimp only
      simp only [SSP.spcCount, SSP.lknCount] at htkS htkL htsS htsL hcapS hcapL ⊢
      simp only [SSP.countHci_append, SSP.countHci_cons, SSP.countHci_nil,
        htkS, htkL, htsS, htsL, hcapS, hcapL, SSP.isSpcH, SSP.isLknH]
      refine ⟨by decide, by decide, by decide⟩
    · refine Or.inr (Or.inr ?_)
      rw [hkey] at htkS htkL
      rw [hs1] at htsS htsL
      simp only at htkS htkL htsS htsL
      rw [heq]
      dsimp only
      simp only [SSP.spcCount, SSP.lknCount] at htkS htkL htsS htsL hcapS hcapL ⊢
      simp only [SSP.countHci_append, SSP.countHci_cons, SSP.countHci_nil,
        htkS, htkL, htsS, htsL, hcapS, hcapL, SSP.isSpcH, SSP.isLknH]
      refine ⟨by decide, by decide, by decide⟩
    · refine Or.inl ?_
      rw [hkey] at htkS htkL
      rw [hs1] at htsS htsL
      simp only at htkS htkL htsS htsL
      rw [heq]
      dsimp only
      refine ⟨?_, ?_, ?_, ⟨(SSP.initiate_capability envI.hostReply
          envI.peerRes).1 ++ tk ++ ts ++
          [.lmpSent (.dhkeyCheck 0 (SSP.zeros 16)),
           .lmpRecv (.dhkeyCheck 0 envI.peerDhkey),
           .lmpSent (.accepted 0 .dhkeyCheck)],
        SSP.link_key_type
          (SSP.authentication_method envI.hostReply envI.peerRes) pk,
        by simp⟩⟩ <;>
        simp only [SSP.spcCount, SSP.lknCount] at htkS htkL htsS htsL hcapS hcapL ⊢ <;>
        simp only [SSP.countHci_append, SSP.countHci_cons,
          SSP.countHci_nil, htkS, htkL, htsS, htsL, hcapS, hcapL,
          SSP.isSpcH, SSP.isLknH] <;>
        simp
  · intro hcomplete
    have hcapS : ∀ s, SSP.spcCount s
        (SSP.respond_capability envR.request envR.hostReply).1 = 0 := by
      intro s
      rw [SSP.respond_capability_eval]
      simp [SSP.spcCount, SSP.countHci_cons, SSP.countHci_nil, SSP.isSpcH]
    have hcapL : SSP.lknCount
        (SSP.respond_capability envR.request envR.hostReply).1 = 0 := by
      rw [SSP.respond_capability_eval]
      simp [SSP.lknCount, SSP.countHci_cons, SSP.countHci_nil, SSP.isLknH]
    have htkS : ∀ s, SSP.spcCount s (SSP.respond_key_exchange envR).1
        = 0 := fun s =>
      SSP.countHci_eq_zero_of_noHci (SSP.respond_key_exchange_noHci envR)
    have htkL : SSP.lknCount (SSP.respond_key_exchange envR).1 = 0 :=
      SSP.countHci_eq_zero_of_noHci (SSP.respond_key_exchange_noHci envR)
    have htsS : ∀ s, SSP.spcCount s
        (SSP.respond_stage1
          (SSP.authentication_method envR.request envR.hostReply)
          envR.hostReply envR).1 = 0 := fun s =>
      SSP.countHci_eq_zero_of_allHci
        (SSP.respond_stage1_benign
          (SSP.authentication_method envR.request envR.hostReply)
          envR.hostReply envR)
        (fun x hx => SSP.benignHci_not_spc s hx)
    have htsL : SSP.lknCount
        (SSP.respond_stage1
          (SSP.authentication_method envR.request envR.hostReply)
          envR.hostReply envR).1 = 0 :=
      SSP.countHci_eq_zero_of_allHci
        (SSP.respond_stage1_benign
          (SSP.authentication_method envR.request envR.hostReply)
          envR.hostReply envR)
        (fun x hx => SSP.benignHci_not_lkn hx)
    rcases SSP.respond_cases envR with
      ⟨tk, hkey, heq⟩ | ⟨tk, pk, ts, hkey, hs1, heq⟩ |
      ⟨tk, pk, ts, neg, hkey, hs1, _, heq⟩ |
      ⟨tk, pk, ts, hkey, hs1, _, heq⟩ |
      ⟨tk, pk, ts, hkey, hs1, _, _, heq⟩ |
      ⟨tk, pk, ts, hkey, hs1, _, _, heq⟩
    · rw [heq] at hcomplete
      simp at hcomplete
    · rw [heq] at hcomplete
      simp at hcomplete
    · refine Or.inr (Or.inl ?_)
      rw [hkey] at htkS htkL
      rw [hs1] at htsS htsL
      simp only at htkS htkL htsS htsL
      rw [heq]
      dsimp only
      simp only [SSP.spcCount, SSP.lknCount] at htkS htkL htsS htsL hcapS hcapL ⊢
      simp only [SSP.countHci_append, SSP.countHci_cons, SSP.countHci_nil,
        htkS, htkL, htsS, htsL, hcapS, hcapL, SSP.isSpcH, SSP.isLknH]
      refine ⟨by decide, by decide, by decide⟩
    · refine Or.inr (Or.inl ?_)
      rw [hkey] at htkS htkL
      rw [hs1] at htsS htsL
      simp only at htkS htkL htsS htsL
      rw [heq]
      dsimp only
      simp only [SSP.spcCount, SSP.lknCount] at htkS htkL htsS htsL hcapS hcapL ⊢
      simp only [SSP.countHci_append, SSP.countHci_cons, SSP.countHci_nil,
        htkS, htkL, htsS, htsL, hcapS, hcapL, SSP.isSpcH, SSP.isLknH]
      refine ⟨by decide, by decide, by decide⟩
    · refine Or.inr (Or.inr ?_)
      rw [hkey] at htkS htkL
      rw [hs1] at htsS htsL
      simp only at htkS htkL htsS htsL
      rw [heq]
      dsimp only
      simp only [SSP.spcCount, SSP.lknCount] at htkS htkL htsS htsL hcapS hcapL ⊢
      simp only [SSP.countHci_append, SSP.countHci_cons, SSP.countHci_nil,
        htkS, htkL, htsS, htsL, hcapS, hcapL, SSP.isSpcH, SSP.isLknH]
      refine ⟨by decide, by decide, by decide⟩
    · refine Or.inl ?_
      rw [hkey] at htkS htkL
      rw [hs1] at htsS htsL
      simp only at htkS htkL htsS htsL
      rw [heq]
      dsimp only
      refine ⟨?_, ?_, ?_, ⟨(SSP.respond_capability envR.request
          envR.hostReply).1 ++ tk ++ ts ++
          [.lmpRecv (.dhkeyCheck 0 envR.peerDhkey),
           .lmpSent (.accepted 0 .dhkeyCheck),
           .lmpSent (.dhkeyCheck 0 (SSP.zeros 16))],
        SSP.link_key_type
          (SSP.authentication_method envR.request envR.hostReply) pk,
        by simp⟩⟩ <;>
        simp only [SSP.spcCount, SSP.lknCount] at htkS htkL htsS htsL hcapS hcapL ⊢ <;>
        simp only [SSP.countHci_append, SSP.countHci_cons,
          SSP.countHci_nil, htkS, htkL, htsS, htsL, hcapS, hcapL,
          SSP.isSpcH, SSP.isLknH] <;>
        simp

theorem SSP.c2_terminal_events_witness :
    ((SSP.spcCount .success (SSP.initiate SSP.envInit0).1 = 1 ∧
        SSP.spcCount .authenticationFailure (SSP.initiate SSP.envInit0).1
          = 0 ∧
        SSP.lknCount (SSP.initiate SSP.envInit0).1 = 1 ∧
        ∃ t' kt, (SSP.initiate SSP.envInit0).1 = t' ++
          [.hciSent (.simplePairingComplete .success),
           .hciSent (.linkKeyNotif kt (SSP.zeros 16))]) ∨
      (SSP.spcCount .authenticationFailure (SSP.initiate SSP.envInit0).1
          = 1 ∧
        SSP.spcCount .success (SSP.initiate SSP.envInit0).1 = 0 ∧
        SSP.lknCount (SSP.initiate SSP.envInit0).1 = 0) ∨
      (SSP.spcCount .success (SSP.initiate SSP.envInit0).1 = 1 ∧
        SSP.spcCount .authenticationFailure (SSP.initiate SSP.envInit0).1
          = 0 ∧
        SSP.lknCount (SSP.initiate SSP.envInit0).1 = 0)) ∧
    ((SSP.spcCount .success (SSP.respond SSP.envResp0).1 = 1 ∧
        SSP.spcCount .authenticationFailure (SSP.respond SSP.envResp0).1
          = 0 ∧
        SSP.lknCount (SSP.respond SSP.envResp0).1 = 1 ∧
        ∃ t' kt, (SSP.respond SSP.envResp0).1 = t' ++
          [.hciSent (.simplePairingComplete .success),
           .hciSent (.linkKeyNotif kt (SSP.zeros 16))]) ∨
      (SSP.spcCount .authenticationFailure (SSP.respond SSP.envResp0).1
          = 1 ∧
        SSP.spcCount .success (SSP.respond SSP.envResp0).1 = 0 ∧
        SSP.lknCount (SSP.respond SSP.envResp0).1 = 0) ∨
      (SSP.spcCount .success (SSP.respond SSP.envResp0).1 = 1 ∧
        SSP.spcCount .authenticationFailure (SSP.respond SSP.envResp0).1
          = 0 ∧
        SSP.lknCount (SSP.respond SSP.envResp0).1 = 0)) := by
  obtain ⟨h1, h2⟩ := SSP.c2_terminal_events SSP.envInit0 SSP.envResp0
    true true
  exact ⟨h1 (by decide), h2 (by decide)⟩
